import Mathlib

/-!
# Semaforo inteligente com acessibilidade

A shallow embedding of `SemaforoInteligente.c` (FreeRTOS firmware for a traffic light with
a night mode, an LED panel, a text display, a buzzer, a status LED and a mode button).

Conventions of the embedding

* The seven `volatile` globals are the record `Shared`.
* `uint32_t` values are `Nat`; every operation that may wrap is written with `% U32`.
  `estado_semaforo` is a C `int`, embedded as `Int`, with `Int.tmod` for the C operator `%`.
* The control task is a small-step machine over the program points of
  `vSemaforoControleTask`; the two points `night_delay` and `wait_delay` are its suspension
  points (lines 210, 240), the only points at which another task can run and read or write
  the globals, the control task having the highest priority.
* Every other task is embedded as one iteration of its `while (true)`: a function of the
  globals it reads at the start of the iteration and of its locals, which returns what the
  iteration writes and the milliseconds it spends in `vTaskDelay`.
* Time is counted in ticks of 1 ms since the scheduler started; a step that calls
  `xTaskGetTickCount()` takes the time as an input and reads it modulo `2^32`.
* `Reachable` interleaves the two writers in any order and at any times; `TReachable` puts
  them on the clock: each runs when its `vTaskDelay` ends, the control task first on a tie.
-/

namespace Semaforo

/-! ## Constants -/

/-- Macro `NUM_PIXELS`, defined as 25. -/
abbrev NUM_PIXELS : Nat := 25
/-- Macro `BRILHO_LED`, defined as 10. -/
abbrev BRILHO_LED : Nat := 10
/-- Macro `TEMPO_VERDE`, defined as 15000. -/
abbrev TEMPO_VERDE : Nat := 15000
/-- Macro `TEMPO_AMARELO`, defined as 5000. -/
abbrev TEMPO_AMARELO : Nat := 5000
/-- Macro `TEMPO_VERMELHO`, defined as 15000. -/
abbrev TEMPO_VERMELHO : Nat := 15000
/-- Macro `TEMPO_PISCA`, defined as 2000. -/
abbrev TEMPO_PISCA : Nat := 2000
/-- Macro `TEMPO_AVISO`, defined as 3000. -/
abbrev TEMPO_AVISO : Nat := 3000
/-- Macro `TEMPO_PISCA_RAPIDO`, defined as 100. -/
abbrev TEMPO_PISCA_RAPIDO : Nat := 100
/-- Macro `ESTADO_VERDE`, defined as 0. -/
abbrev ESTADO_VERDE : Int := 0
/-- Macro `ESTADO_AMARELO`, defined as 1. -/
abbrev ESTADO_AMARELO : Int := 1
/-- Macro `ESTADO_VERMELHO`, defined as 2. -/
abbrev ESTADO_VERMELHO : Int := 2

/-- Number of values of a `uint32_t`, `2^32`. -/
abbrev U32 : Nat := 4294967296

/-- Subtraction of two `uint32_t` values, as C computes it (modulo `2^32`). -/
def u32_sub (a b : Nat) : Nat := (a % U32 + U32 - b % U32) % U32

/-- Addition of two `uint32_t` values, as C computes it (modulo `2^32`). -/
def u32_add (a b : Nat) : Nat := (a + b) % U32

/-- Modelled from the spec: `FreeRTOSConfig.h` is not among the sources, so the tick rate is
taken from the spec, which counts every delay and every tick difference in milliseconds
(one tick per millisecond). -/
abbrev configTICK_RATE_HZ : Nat := 1000

/-- The FreeRTOS conversion `pdMS_TO_TICKS(ms) = ms * configTICK_RATE_HZ / 1000`. -/
def pdMS_TO_TICKS (ms : Nat) : Nat := (ms * configTICK_RATE_HZ % U32) / 1000

/-! ## Shared state -/

/-- The `volatile` globals of lines 58-64. -/
structure Shared where
  modo_noturno : Bool
  estado_semaforo : Int
  led_aceso : Bool
  tempo_atual : Nat
  tempo_estado : Nat
  timestamp_modo_noturno : Nat
  aviso_troca : Bool
  deriving DecidableEq, Repr

/-- The initial values of the globals (lines 58-64). -/
def Shared.init : Shared :=
  { modo_noturno := false, estado_semaforo := 0, led_aceso := false, tempo_atual := 0,
    tempo_estado := 0, timestamp_modo_noturno := 0, aviso_troca := false }

/-! ## `vSemaforoControleTask` -/

/-- Program points of `vSemaforoControleTask`.
* `entry`: line 187, before the first statement;
* `loop_head`: line 190, head of `while (true)`;
* `night_delay`: suspended in `vTaskDelay(pdMS_TO_TICKS(50))`, line 210;
* `while_cond`: line 231, the test of the wait loop;
* `wait_delay`: suspended in `vTaskDelay(pdMS_TO_TICKS(100))`, line 240;
* `after_while`: line 250, after the wait loop. -/
inductive CtlPc where
  | entry
  | loop_head
  | night_delay
  | while_cond
  | wait_delay
  | after_while
  deriving DecidableEq, Repr

/-- Local state of `vSemaforoControleTask`: its program point and its local
`ultimo_tick_modo_noturno`. -/
structure Ctl where
  pc : CtlPc
  ultimo_tick_modo_noturno : Nat
  deriving DecidableEq, Repr

/-- The task is blocked in a `vTaskDelay`. -/
def CtlPc.suspended : CtlPc → Bool
  | .night_delay => true
  | .wait_delay => true
  | _ => false

/-- Milliseconds of the `vTaskDelay` the task is blocked in (0 when it is not blocked). -/
def CtlPc.delay_ms : CtlPc → Nat
  | .night_delay => 50
  | .wait_delay => 100
  | _ => 0

/-- The `switch (estado_semaforo)` of lines 215-225: the new value of `tempo_estado`. -/
def switch_tempo_estado (g : Shared) : Nat :=
  if g.estado_semaforo = ESTADO_VERDE then TEMPO_VERDE
  else if g.estado_semaforo = ESTADO_AMARELO then TEMPO_AMARELO
  else if g.estado_semaforo = ESTADO_VERMELHO then TEMPO_VERMELHO
  else g.tempo_estado

/-- The value of `xTaskGetTickCount()` when `now` ticks have passed since the scheduler
started: the tick counter is a `uint32_t`. -/
def xTaskGetTickCount (now : Nat) : Nat := now % U32

/-- One step of `vSemaforoControleTask`, from a program point to the next one.
`now` is the number of ticks since the scheduler started (read by line 196 only). -/
def vSemaforoControleTask (now : Nat) (g : Shared) (c : Ctl) : Shared × Ctl :=
  match c.pc with
  | .entry =>
    -- line 187-188
    ({ g with tempo_estado := TEMPO_VERDE }, { pc := .loop_head, ultimo_tick_modo_noturno := 0 })
  | .loop_head =>
    if g.modo_noturno then
      -- lines 192-193
      let g1 := { g with estado_semaforo := ESTADO_AMARELO, aviso_troca := false }
      -- lines 196-197
      let tick_atual := xTaskGetTickCount now
      let tempo_decorrido := u32_sub tick_atual c.ultimo_tick_modo_noturno
      -- lines 200-207
      if tempo_decorrido ≥ pdMS_TO_TICKS TEMPO_PISCA then
        ({ g1 with led_aceso := !g1.led_aceso, timestamp_modo_noturno := tick_atual },
         { pc := .night_delay, ultimo_tick_modo_noturno := tick_atual })
      else
        (g1, { c with pc := .night_delay })
    else
      -- lines 215-228
      ({ g with tempo_estado := switch_tempo_estado g, tempo_atual := 0 },
       { c with pc := .while_cond })
  | .night_delay =>
    -- line 210 returns, back to line 190
    (g, { c with pc := .loop_head })
  | .while_cond =>
    if g.tempo_atual < g.tempo_estado then
      -- lines 233-240
      let aviso := decide (g.tempo_atual ≥ u32_sub g.tempo_estado TEMPO_AVISO)
      ({ g with aviso_troca := aviso, tempo_atual := u32_add g.tempo_atual 100 },
       { c with pc := .wait_delay })
    else
      (g, { c with pc := .after_while })
  | .wait_delay =>
    -- line 240 returns; lines 243-246
    if g.modo_noturno then
      ({ g with aviso_troca := false }, { c with pc := .after_while })
    else
      (g, { c with pc := .while_cond })
  | .after_while =>
    -- lines 250-254
    if g.tempo_atual ≥ g.tempo_estado ∧ g.modo_noturno = false then
      ({ g with estado_semaforo := Int.tmod (g.estado_semaforo + 1) 3, aviso_troca := false },
       { c with pc := .loop_head })
    else
      (g, { c with pc := .loop_head })

/-- The control task before its first statement. -/
def Ctl.init : Ctl := { pc := .entry, ultimo_tick_modo_noturno := 0 }

/-- Runs `n` consecutive steps of `vSemaforoControleTask` with nothing else writing the globals
(a night step of the run reads the tick count at time `now`). -/
def ctl_run (now : Nat) : Nat → Shared × Ctl → Shared × Ctl
  | 0, s => s
  | n + 1, s => ctl_run now n (vSemaforoControleTask now s.1 s.2)

/-- What the other tasks can see of `n` consecutive steps of `vSemaforoControleTask` taken
alone: for every step that ends in a `vTaskDelay`, the colour in `estado_semaforo` when the
task blocks and the milliseconds of the delay, in order. -/
def ctl_trace (now : Nat) : Nat → Shared × Ctl → List (Int × Nat)
  | 0, _ => []
  | n + 1, s =>
    let s1 := vSemaforoControleTask now s.1 s.2
    if s1.2.pc.suspended then
      (s1.1.estado_semaforo, s1.2.pc.delay_ms) :: ctl_trace now n s1
    else
      ctl_trace now n s1

/-- One period of the NORMAL cycle as the other tasks see it: 150 delays of 100 ms in GREEN,
50 in YELLOW, 150 in RED. -/
def ciclo_normal : List (Int × Nat) :=
  List.replicate 150 (ESTADO_VERDE, 100) ++ List.replicate 50 (ESTADO_AMARELO, 100)
    ++ List.replicate 150 (ESTADO_VERMELHO, 100)

/-- Flip times of `led_aceso` in an uninterrupted NIGHT run: the task is at `loop_head` at
time `t`, runs lines 191-210 and is back at `loop_head` 50 ms later, `n` times over. A time
is listed when the step taken at that time changed `led_aceso`. -/
def night_flips : Nat → Nat → Shared → Ctl → List Nat
  | 0, _, _, _ => []
  | n + 1, t, g, c =>
    let s1 := vSemaforoControleTask t g c
    let s2 := vSemaforoControleTask (t + 50) s1.1 s1.2
    let rest := night_flips n (t + 50) s2.1 s2.2
    if s1.1.led_aceso = g.led_aceso then rest else t :: rest

/-! ## `vBotoesTask` -/

/-- One iteration of the `while (true)` of `vBotoesTask` (lines 444-475). `now` is the time
of the poll, `estado_atual_botao_a` the sample `gpio_get(BOTAO_A)` returns (`false` is
pressed), `ultimo_estado_botao_a` the local of the task. Returns the globals, the local and
the milliseconds the iteration spends in `vTaskDelay` (200 + 50 after an edge, else 50). -/
def vBotoesTask (now : Nat) (estado_atual_botao_a : Bool) (g : Shared)
    (ultimo_estado_botao_a : Bool) : Shared × Bool × Nat :=
  if ultimo_estado_botao_a && !estado_atual_botao_a then
    -- lines 451-452
    let modo_anterior := g.modo_noturno
    let g1 := { g with modo_noturno := !g.modo_noturno }
    -- lines 455-458
    let g2 := if modo_anterior && !g1.modo_noturno then
        { g1 with estado_semaforo := ESTADO_VERDE, tempo_atual := 0 }
      else g1
    -- lines 461-462
    let g3 := { g2 with led_aceso := false, timestamp_modo_noturno := xTaskGetTickCount now }
    -- lines 470, 473, 474
    (g3, estado_atual_botao_a, 200 + 50)
  else
    -- lines 473, 474
    (g, estado_atual_botao_a, 50)

/-- Times at which `vBotoesTask` changed `modo_noturno` when it polls the samples of the
list in turn, starting at time `t`: every iteration takes one sample at its start and the
next iteration starts when the delays of this one have elapsed. -/
def botoes_toggles : Nat → List Bool → Shared → Bool → List Nat
  | _, [], _, _ => []
  | t, sample :: samples, g, ultimo =>
    let r := vBotoesTask t sample g ultimo
    let rest := botoes_toggles (t + r.2.2) samples r.1 r.2.1
    if r.1.modo_noturno = g.modo_noturno then rest else t :: rest

/-! ## `vDisplayTask` -/

/-- The number `vDisplayTask` passes to `sprintf` at line 321,
`(tempo_estado - tempo_atual) / 1000 + 1` in `uint32_t` arithmetic. -/
def tempo_restante (g : Shared) : Nat :=
  u32_add (u32_sub g.tempo_estado g.tempo_atual / 1000) 1

/-- The `ssd1306_draw_string` calls `(text, x, y)` of one cycle of `vDisplayTask`
(lines 296-326), in order. -/
def vDisplayTask (g : Shared) : List (String × Nat × Nat) :=
  if g.modo_noturno then
    [("MODO NOTURNO", 20, 20), ("Atencao", 35, 40)]
  else
    [("SEMAFORO", 30, 10)]
    ++ (if g.estado_semaforo = ESTADO_VERDE then [("Siga", 45, 30)]
        else if g.estado_semaforo = ESTADO_AMARELO then [("Atencao", 35, 30)]
        else if g.estado_semaforo = ESTADO_VERMELHO then [("Pare", 45, 30)]
        else [])
    ++ (if g.aviso_troca then [("Troca em " ++ toString (tempo_restante g) ++ "s", 20, 50)]
        else [])

/-! ## `vBuzzerTask` -/

/-- What `vBuzzerTask` does to the PWM slice and to the scheduler. -/
inductive BuzzerOp where
  | pwm_set_clkdiv (divider : Nat)
  | pwm_set_wrap (wrap : Nat)
  | pwm_set_gpio_level (level : Nat)
  | vTaskDelay (ms : Nat)
  deriving DecidableEq, Repr

/-- The assignment `wrap = (125000000 / (freq * divider)) - 1` with `divider = 20.0f`,
stored in a `uint16_t`: the integer part of the quotient less one, modulo `2^16`. -/
def buzzer_wrap (freq : Nat) : Nat := (125000000 / (freq * 20) - 1) % 65536

/-- The tone of one cycle: program the slice for `freq`, sound for `on_ms`, silence. -/
def buzzer_tone (freq on_ms : Nat) : List BuzzerOp :=
  [.pwm_set_clkdiv 20, .pwm_set_wrap (buzzer_wrap freq),
   .pwm_set_gpio_level (buzzer_wrap freq / 2), .vTaskDelay on_ms, .pwm_set_gpio_level 0]

/-- One iteration of the `while (true)` of `vBuzzerTask` (lines 338-398), started at time
`now`: the operations it performs, in order. -/
def vBuzzerTask (now : Nat) (g : Shared) : List BuzzerOp :=
  if g.modo_noturno then
    let tick_atual := xTaskGetTickCount now
    let tempo_desde_mudanca := u32_sub tick_atual g.timestamp_modo_noturno
    if g.led_aceso && decide (tempo_desde_mudanca < pdMS_TO_TICKS 200) then
      buzzer_tone 800 200
    else
      [.pwm_set_gpio_level 0, .vTaskDelay 50]
  else if g.estado_semaforo = ESTADO_VERDE then
    buzzer_tone 1000 100 ++ [.vTaskDelay 900]
  else if g.estado_semaforo = ESTADO_AMARELO then
    buzzer_tone 1200 100 ++ [.vTaskDelay 100]
  else if g.estado_semaforo = ESTADO_VERMELHO then
    buzzer_tone 1500 500 ++ [.vTaskDelay 1500]
  else
    []

/-! ## `vLedRgbTask` -/

/-- One iteration of the `while (true)` of `vLedRgbTask` (lines 407-436).
`led_rgb_estado` is the local of the task. Returns the arguments `(r, g, b)` of the call of
`led_rgb_controller` (`none` when the iteration makes no call), the local, and the
milliseconds of the `vTaskDelay`. -/
def vLedRgbTask (g : Shared) (led_rgb_estado : Bool) :
    Option (Bool × Bool × Bool) × Bool × Nat :=
  if g.modo_noturno then
    (some (false, false, false), led_rgb_estado, 100)
  else if g.aviso_troca then
    let p := !led_rgb_estado
    let out :=
      if g.estado_semaforo = ESTADO_VERDE then some (false, p, false)
      else if g.estado_semaforo = ESTADO_AMARELO then some (p, p, false)
      else if g.estado_semaforo = ESTADO_VERMELHO then some (p, false, false)
      else none
    (out, p, TEMPO_PISCA_RAPIDO)
  else
    (some (false, false, false), led_rgb_estado, 100)

/-! ## `vMatrizLedsTask` -/

/-- The function `urgb_u32` of lines 168-170: the three `uint8_t` components packed in the
order green, red, blue, `(g << 16) | (r << 8) | b`. -/
def urgb_u32 (r g b : Nat) : Nat :=
  (((g % 256) <<< 16) % U32) ||| (((r % 256) <<< 8) % U32) ||| (b % 256)

/-- The function `put_pixel` of lines 173-175: the word it hands to `pio_sm_put_blocking`,
`pixel_grb << 8u` in `uint32_t`. -/
def put_pixel (pixel_grb : Nat) : Nat := (pixel_grb <<< 8) % U32

/-- The function `display_matriz` of lines 178-183: the words of one frame, one `put_pixel`
per pass of the `for` loop over `NUM_PIXELS`. -/
def display_matriz (r g b : Nat) : List Nat :=
  (List.range NUM_PIXELS).map (fun _ => put_pixel (urgb_u32 r g b))

/-- One iteration of the `while (true)` of `vMatrizLedsTask` (lines 262-285): the words it
writes to the LED panel (none when the `switch` takes no case) and the milliseconds of the
`vTaskDelay`. -/
def vMatrizLedsTask (g : Shared) : List Nat × Nat :=
  if g.modo_noturno then
    if g.led_aceso then
      (display_matriz BRILHO_LED BRILHO_LED 0, 50)
    else
      (display_matriz 0 0 0, 50)
  else if g.estado_semaforo = ESTADO_VERDE then
    (display_matriz 0 BRILHO_LED 0, 50)
  else if g.estado_semaforo = ESTADO_AMARELO then
    (display_matriz BRILHO_LED BRILHO_LED 0, 50)
  else if g.estado_semaforo = ESTADO_VERMELHO then
    (display_matriz BRILHO_LED 0 0, 50)
  else
    ([], 50)

/-! ## The tasks together -/

/-- The globals with the locals of the two tasks that write them. -/
structure Sys where
  g : Shared
  ctl : Ctl
  ultimo_estado_botao_a : Bool
  deriving DecidableEq, Repr

/-- The state when the scheduler starts (lines 58-64, 188, 442). -/
def Sys.init : Sys := { g := Shared.init, ctl := Ctl.init, ultimo_estado_botao_a := true }

/-- A step of the control task in the system. -/
def Sys.ctl_step (now : Nat) (s : Sys) : Sys :=
  { s with g := (vSemaforoControleTask now s.g s.ctl).1,
           ctl := (vSemaforoControleTask now s.g s.ctl).2 }

/-- A poll of the button task in the system. -/
def Sys.botoes_step (now : Nat) (sample : Bool) (s : Sys) : Sys :=
  { s with g := (vBotoesTask now sample s.g s.ultimo_estado_botao_a).1,
           ultimo_estado_botao_a := (vBotoesTask now sample s.g s.ultimo_estado_botao_a).2.1 }

/-- States the two writers can reach, at any tick counts and for any button samples. The
control task has the highest priority (`tskIDLE_PRIORITY + 3`), so the button task runs only
while the control task is blocked in a `vTaskDelay`; the control task may wake up after any
number of polls. -/
inductive Reachable : Sys → Prop where
  | init : Reachable Sys.init
  | ctl (now : Nat) (s : Sys) : Reachable s → Reachable (s.ctl_step now)
  | botoes (now : Nat) (sample : Bool) (s : Sys) :
      Reachable s → s.ctl.pc.suspended = true → Reachable (s.botoes_step now sample)

/-- The invariant of the reachable states: the colour is one of the three, `tempo_atual` is
a multiple of 100 not above `tempo_estado`, `tempo_estado` is a dwell time once the control
task has started, and the wait loop is entered in NORMAL mode only. -/
def Sys.inv (s : Sys) : Prop :=
  (s.g.estado_semaforo = 0 ∨ s.g.estado_semaforo = 1 ∨ s.g.estado_semaforo = 2) ∧
  s.g.tempo_atual % 100 = 0 ∧
  s.g.tempo_atual ≤ s.g.tempo_estado ∧
  (s.ctl.pc = .entry → s.g.tempo_estado = 0) ∧
  (s.ctl.pc ≠ .entry → s.g.tempo_estado = 5000 ∨ s.g.tempo_estado = 15000) ∧
  (s.ctl.pc = .while_cond → s.g.modo_noturno = false)

/-- The state in which the control task, alone since the start, is about to run the body of
the wait loop of the first GREEN dwell for the pass number `k + 2`: `tempo_atual` is
`100 * (k + 1)` and `aviso_troca` is what pass `k + 1` computed. -/
def sys_verde (k : Nat) : Sys :=
  { g := { Shared.init with tempo_estado := 15000, tempo_atual := 100 * (k + 1),
                            aviso_troca := decide (100 * k ≥ 12000) },
    ctl := { pc := .while_cond, ultimo_tick_modo_noturno := 0 },
    ultimo_estado_botao_a := true }

/-- A NIGHT state with RED left in `estado_semaforo` and the LED on. -/
def noite_exemplo : Shared :=
  { Shared.init with modo_noturno := true, estado_semaforo := 2, led_aceso := true,
                     tempo_atual := 7700, tempo_estado := 15000 }

/-- The state reached from `sys_verde 128` when the control task blocks (GREEN,
`tempo_atual = 13000`), the button task acts on a press edge at time 13000, and the control
task wakes up and leaves the wait loop: the task is at the head of its loop in NIGHT mode
with GREEN still in `estado_semaforo`. -/
def sys_noite_verde : Sys :=
  ((((sys_verde 128).ctl_step 0).botoes_step 13000 false).ctl_step 13000).ctl_step 13000

/-! ## The two writers on the clock -/

/-- Runs the control task from where it is until it blocks in a `vTaskDelay`: steps of
`vSemaforoControleTask` at time `now`, at most `fuel` of them, up to the first that ends at
a suspension point. -/
def ctl_until_blocked (now : Nat) : Nat → Shared × Ctl → Shared × Ctl
  | 0, s => s
  | fuel + 1, s =>
    let s1 := vSemaforoControleTask now s.1 s.2
    if s1.2.pc.suspended then s1 else ctl_until_blocked now fuel s1

/-- The two writers with the times at which their `vTaskDelay` calls end (in ms since the
scheduler started; code between two delays takes no time). -/
structure Timed where
  sys : Sys
  wake_ctl : Nat
  wake_botoes : Nat
  deriving DecidableEq, Repr

/-- The scheduler starts at time 0 with both tasks ready. -/
def Timed.init : Timed := { sys := Sys.init, wake_ctl := 0, wake_botoes := 0 }

/-- The next thing that happens on the clock. The task whose delay ends first runs, the
control task first when both end together (`tskIDLE_PRIORITY + 3` against
`tskIDLE_PRIORITY + 2`). The control task runs at `wake_ctl` until it blocks again, for the
50 or 100 ms of the delay it reaches; the button task runs one iteration at `wake_botoes`,
takes `sample` from the pin, and blocks for the 50 or 200 + 50 ms of the iteration. -/
def Timed.step (sample : Bool) (t : Timed) : Timed :=
  if t.wake_ctl ≤ t.wake_botoes then
    { sys := { t.sys with g := (ctl_until_blocked t.wake_ctl 6 (t.sys.g, t.sys.ctl)).1,
                          ctl := (ctl_until_blocked t.wake_ctl 6 (t.sys.g, t.sys.ctl)).2 },
      wake_ctl := t.wake_ctl
        + (ctl_until_blocked t.wake_ctl 6 (t.sys.g, t.sys.ctl)).2.pc.delay_ms,
      wake_botoes := t.wake_botoes }
  else
    { sys := t.sys.botoes_step t.wake_botoes sample,
      wake_ctl := t.wake_ctl,
      wake_botoes := t.wake_botoes
        + (vBotoesTask t.wake_botoes sample t.sys.g t.sys.ultimo_estado_botao_a).2.2 }

/-- States the two writers reach on the clock, for any sequence of button samples. -/
inductive TReachable : Timed → Prop where
  | init : TReachable Timed.init
  | step (sample : Bool) (t : Timed) : TReachable t → TReachable (t.step sample)

/-- The invariant of the states reached on the clock: the state is reachable without the
clock; the control task is blocked, or has not started and runs next; the delay of the
control task ends at most 100 ms after the delay of the button task; in NIGHT mode with the
warning flag still set the control task runs next; and in NORMAL mode with the warning flag
set, `tempo_atual` is within the last 2900 ms of `tempo_estado`. -/
def Timed.inv (t : Timed) : Prop :=
  Reachable t.sys ∧
  (t.sys.ctl.pc.suspended = true ∨
    (t.sys.ctl.pc = .entry ∧ t.wake_ctl ≤ t.wake_botoes ∧ t.sys.g.aviso_troca = false)) ∧
  t.wake_ctl ≤ t.wake_botoes + 100 ∧
  (t.sys.g.modo_noturno = true → t.sys.g.aviso_troca = true → t.wake_ctl ≤ t.wake_botoes) ∧
  (t.sys.g.modo_noturno = false → t.sys.g.aviso_troca = true →
    t.sys.g.tempo_atual ≤ t.sys.g.tempo_estado ∧
    t.sys.g.tempo_estado < t.sys.g.tempo_atual + 3000)

/-- The invariant of the warning flag on the clock. Once the control task is blocked: in
NORMAL mode the flag is set exactly when `tempo_atual` is within the last 2900 ms of
`tempo_estado`. In NIGHT mode a flag that is still set has the value the dwell gave it, and
the delay of the control task ends at least 150 ms before the next poll of the button task
(the button task is in the 250 ms that follow its toggle, and the delay of the control
task ends at most 100 ms after the toggle). -/
def Timed.inv_aviso (t : Timed) : Prop :=
  (t.sys.ctl.pc.suspended = true → t.sys.g.modo_noturno = false →
    (t.sys.g.aviso_troca = true ↔ t.sys.g.tempo_estado < t.sys.g.tempo_atual + 3000)) ∧
  (t.sys.g.modo_noturno = true → t.sys.g.aviso_troca = true →
    t.sys.g.tempo_estado < t.sys.g.tempo_atual + 3000 ∧ t.wake_ctl + 150 ≤ t.wake_botoes)

/-- What a run of the control task up to its next delay has to leave, `m` being the value of
`modo_noturno` during the run: the task is blocked, for at most 100 ms; the mode is `m`; in
NIGHT mode the warning flag is cleared; in NORMAL mode, if the warning flag is set,
`tempo_atual` is within the last 2900 ms of `tempo_estado`. -/
def blocked_ok (m : Bool) (r : Shared × Ctl) : Prop :=
  r.2.pc.suspended = true ∧
  r.2.pc.delay_ms ≤ 100 ∧
  r.1.modo_noturno = m ∧
  (m = true → r.1.aviso_troca = false) ∧
  (m = false → r.1.aviso_troca = true →
    r.1.tempo_atual ≤ r.1.tempo_estado ∧ r.1.tempo_estado < r.1.tempo_atual + 3000)

/-- The state on the clock when the control task, with the button never pressed, blocks in
the delay of the first GREEN dwell in which `tempo_atual` is `100 * (k + 1)`: the delay ends
at `100 * (k + 1)` ms and the button task polls next at `100 * k` ms. -/
def timed_verde (k : Nat) : Timed :=
  { sys := { sys_verde k with ctl := { pc := .wait_delay, ultimo_tick_modo_noturno := 0 } },
    wake_ctl := 100 * (k + 1),
    wake_botoes := 100 * k }

/-- The state that follows `sys_verde 128` when the control task blocks (GREEN,
`tempo_atual = 13000`, warning on) and the button task then polls pressed, released and
pressed again before the control task wakes up. -/
def sys_dois_toques : Sys :=
  ((((sys_verde 128).ctl_step 0).botoes_step 0 false).botoes_step 0 true).botoes_step 0 false

/-! ## Lemmas on the control task -/

theorem ctl_run_add (now m n : Nat) (s : Shared × Ctl) :
    ctl_run now (m + n) s = ctl_run now n (ctl_run now m s) := by
  induction m generalizing s with
  | zero => simp [ctl_run]
  | succ m ih => rw [Nat.add_right_comm]; simp only [ctl_run]; exact ih _

theorem ctl_trace_add (now m n : Nat) (s : Shared × Ctl) :
    ctl_trace now (m + n) s = ctl_trace now m s ++ ctl_trace now n (ctl_run now m s) := by
  induction m generalizing s with
  | zero => simp [ctl_run, ctl_trace]
  | succ m ih =>
    rw [Nat.add_right_comm]
    simp only [ctl_run, ctl_trace]
    split <;> simp [ih]

theorem u32_sub_of_le {a b : Nat} (hb : b ≤ a) (ha : a < U32) : u32_sub a b = a - b := by
  simp only [u32_sub, U32] at *; omega

theorem u32_add_of_lt {a b : Nat} (h : a + b < U32) : u32_add a b = a + b := by
  simp only [u32_add, U32] at *; omega

/-- One pass through the wait loop in NORMAL mode: body, delay, test of `modo_noturno`. -/
theorem wait_iter (now : Nat) (g : Shared) (u : Nat) (hm : g.modo_noturno = false)
    (hlt : g.tempo_atual < g.tempo_estado) (hT : g.tempo_estado + 100 ≤ U32) :
    ctl_run now 2 (g, ⟨.while_cond, u⟩) =
      ({ g with aviso_troca := decide (g.tempo_atual ≥ u32_sub g.tempo_estado TEMPO_AVISO),
                tempo_atual := g.tempo_atual + 100 }, ⟨.while_cond, u⟩) := by
  have h1 : u32_add g.tempo_atual 100 = g.tempo_atual + 100 := u32_add_of_lt (by omega)
  simp [ctl_run, vSemaforoControleTask, hlt, hm, h1]

/-- The first half of a pass: the body of the wait loop up to the delay. -/
theorem wait_body (now : Nat) (g : Shared) (u : Nat)
    (hlt : g.tempo_atual < g.tempo_estado) (hT : g.tempo_estado + 100 ≤ U32) :
    vSemaforoControleTask now g ⟨.while_cond, u⟩ =
      ({ g with aviso_troca := decide (g.tempo_atual ≥ u32_sub g.tempo_estado TEMPO_AVISO),
                tempo_atual := g.tempo_atual + 100 }, ⟨.wait_delay, u⟩) := by
  have h1 : u32_add g.tempo_atual 100 = g.tempo_atual + 100 := u32_add_of_lt (by omega)
  simp [vSemaforoControleTask, hlt, h1]

/-- The globals after `k + 1` passes through the wait loop in NORMAL mode. -/
theorem wait_loop (now : Nat) (g : Shared) (u : Nat) (k : Nat) (hm : g.modo_noturno = false)
    (hlt : g.tempo_atual + 100 * k < g.tempo_estado) (hT : g.tempo_estado + 100 ≤ U32) :
    ctl_run now (2 * (k + 1)) (g, ⟨.while_cond, u⟩) =
      ({ g with aviso_troca :=
                  decide (g.tempo_atual + 100 * k ≥ u32_sub g.tempo_estado TEMPO_AVISO),
                tempo_atual := g.tempo_atual + 100 * (k + 1) }, ⟨.while_cond, u⟩) := by
  induction k generalizing g with
  | zero => simpa using wait_iter now g u hm (by omega) hT
  | succ k ih =>
    have e : 2 * (k + 1 + 1) = 2 + 2 * (k + 1) := by ring
    rw [e, ctl_run_add, wait_iter now g u hm (by omega) hT, ih _ ?_ ?_ ?_]
    · simp only [Prod.mk.injEq, and_true, Shared.mk.injEq, true_and]
      constructor
      · ring
      · have e2 : g.tempo_atual + 100 + 100 * k = g.tempo_atual + 100 * (k + 1) := by ring
        rw [e2]
    · exact hm
    · simp only; omega
    · exact hT

/-- The globals at the delay of pass `k + 1` of the wait loop in NORMAL mode. -/
theorem wait_loop_suspended (now : Nat) (g : Shared) (u : Nat) (k : Nat)
    (hm : g.modo_noturno = false)
    (hlt : g.tempo_atual + 100 * k < g.tempo_estado) (hT : g.tempo_estado + 100 ≤ U32) :
    ctl_run now (2 * k + 1) (g, ⟨.while_cond, u⟩) =
      ({ g with aviso_troca :=
                  decide (g.tempo_atual + 100 * k ≥ u32_sub g.tempo_estado TEMPO_AVISO),
                tempo_atual := g.tempo_atual + 100 * (k + 1) }, ⟨.wait_delay, u⟩) := by
  cases k with
  | zero => simpa [ctl_run] using wait_body now g u (by omega) hT
  | succ k =>
    rw [ctl_run_add, wait_loop now g u k hm (by omega) hT]
    simp only [ctl_run]
    rw [wait_body now _ u ?_ ?_]
    · simp only [Prod.mk.injEq, and_true, Shared.mk.injEq, true_and]
      ring
    · simp only; omega
    · exact hT

/-- The trace of `k` passes through the wait loop in NORMAL mode: `k` delays of 100 ms, the
colour unchanged. -/
theorem wait_loop_trace (now : Nat) (g : Shared) (u : Nat) (k : Nat)
    (hm : g.modo_noturno = false)
    (hlt : g.tempo_atual + 100 * k ≤ g.tempo_estado) (hT : g.tempo_estado + 100 ≤ U32) :
    ctl_trace now (2 * k) (g, ⟨.while_cond, u⟩) = List.replicate k (g.estado_semaforo, 100) := by
  induction k generalizing g with
  | zero => simp [ctl_trace]
  | succ k ih =>
    have e : 2 * (k + 1) = 2 + 2 * k := by ring
    rw [e, ctl_trace_add, wait_iter now g u hm (by omega) hT, ih _ ?_ ?_ ?_]
    · simp only [ctl_trace]
      rw [wait_body now g u (by omega) hT]
      simp [CtlPc.suspended, CtlPc.delay_ms, vSemaforoControleTask, hm, List.replicate_succ]
    · exact hm
    · simp only; omega
    · exact hT

/-- A whole dwell in NORMAL mode, from `loop_head` back to `loop_head`. -/
theorem dwell_run (now : Nat) (g : Shared) (u : Nat) (k : Nat) (hm : g.modo_noturno = false)
    (hT : switch_tempo_estado g = 100 * (k + 1)) (hU : 100 * (k + 1) + 100 ≤ U32) :
    ctl_run now (2 * (k + 1) + 3) (g, ⟨.loop_head, u⟩) =
      ({ g with estado_semaforo := Int.tmod (g.estado_semaforo + 1) 3, aviso_troca := false,
                tempo_estado := 100 * (k + 1), tempo_atual := 100 * (k + 1) },
       ⟨.loop_head, u⟩) := by
  have e : 2 * (k + 1) + 3 = 1 + (2 * (k + 1) + 2) := by ring
  rw [e, ctl_run_add, ctl_run_add]
  have h1 : ctl_run now 1 (g, ⟨.loop_head, u⟩) =
      ({ g with tempo_estado := 100 * (k + 1), tempo_atual := 0 }, ⟨.while_cond, u⟩) := by
    simp [ctl_run, vSemaforoControleTask, hm, hT]
  rw [h1, wait_loop now _ u k ?_ ?_ ?_]
  · simp [ctl_run, vSemaforoControleTask, hm]
  · exact hm
  · simp only; omega
  · exact hU

/-- The trace of a whole dwell in NORMAL mode: one delay of 100 ms per pass, the colour
unchanged. -/
theorem dwell_trace (now : Nat) (g : Shared) (u : Nat) (k : Nat) (hm : g.modo_noturno = false)
    (hT : switch_tempo_estado g = 100 * (k + 1)) (hU : 100 * (k + 1) + 100 ≤ U32) :
    ctl_trace now (2 * (k + 1) + 3) (g, ⟨.loop_head, u⟩) =
      List.replicate (k + 1) (g.estado_semaforo, 100) := by
  have e : 2 * (k + 1) + 3 = 1 + (2 * (k + 1) + 2) := by ring
  rw [e, ctl_trace_add, ctl_trace_add]
  have h1 : ctl_run now 1 (g, ⟨.loop_head, u⟩) =
      ({ g with tempo_estado := 100 * (k + 1), tempo_atual := 0 }, ⟨.while_cond, u⟩) := by
    simp [ctl_run, vSemaforoControleTask, hm, hT]
  have h0 : ctl_trace now 1 (g, ⟨.loop_head, u⟩) = [] := by
    simp [ctl_trace, vSemaforoControleTask, hm, CtlPc.suspended]
  rw [h1, h0, wait_loop now _ u k ?_ ?_ ?_, wait_loop_trace now _ u (k + 1) ?_ ?_ ?_]
  · simp [ctl_trace, vSemaforoControleTask, hm, CtlPc.suspended]
  · exact hm
  · simp only; omega
  · exact hU
  · exact hm
  · simp only; omega
  · exact hU

/-- The GREEN dwell. -/
theorem dwell_verde (now : Nat) (g : Shared) (u : Nat) (hm : g.modo_noturno = false)
    (hc : g.estado_semaforo = ESTADO_VERDE) :
    ctl_trace now 303 (g, ⟨.loop_head, u⟩) = List.replicate 150 (ESTADO_VERDE, 100) ∧
    ctl_run now 303 (g, ⟨.loop_head, u⟩) =
      ({ g with estado_semaforo := ESTADO_AMARELO, aviso_troca := false,
                tempo_estado := 15000, tempo_atual := 15000 }, ⟨.loop_head, u⟩) := by
  have hT : switch_tempo_estado g = 100 * (149 + 1) := by simp [switch_tempo_estado, hc]
  have h1 := dwell_trace now g u 149 hm hT (by decide)
  have h2 := dwell_run now g u 149 hm hT (by decide)
  rw [hc] at h1 h2
  exact ⟨h1, h2⟩

/-- The YELLOW dwell. -/
theorem dwell_amarelo (now : Nat) (g : Shared) (u : Nat) (hm : g.modo_noturno = false)
    (hc : g.estado_semaforo = ESTADO_AMARELO) :
    ctl_trace now 103 (g, ⟨.loop_head, u⟩) = List.replicate 50 (ESTADO_AMARELO, 100) ∧
    ctl_run now 103 (g, ⟨.loop_head, u⟩) =
      ({ g with estado_semaforo := ESTADO_VERMELHO, aviso_troca := false,
                tempo_estado := 5000, tempo_atual := 5000 }, ⟨.loop_head, u⟩) := by
  have hT : switch_tempo_estado g = 100 * (49 + 1) := by simp [switch_tempo_estado, hc]
  have h1 := dwell_trace now g u 49 hm hT (by decide)
  have h2 := dwell_run now g u 49 hm hT (by decide)
  rw [hc] at h1 h2
  exact ⟨h1, h2⟩

/-- The RED dwell. -/
theorem dwell_vermelho (now : Nat) (g : Shared) (u : Nat) (hm : g.modo_noturno = false)
    (hc : g.estado_semaforo = ESTADO_VERMELHO) :
    ctl_trace now 303 (g, ⟨.loop_head, u⟩) = List.replicate 150 (ESTADO_VERMELHO, 100) ∧
    ctl_run now 303 (g, ⟨.loop_head, u⟩) =
      ({ g with estado_semaforo := ESTADO_VERDE, aviso_troca := false,
                tempo_estado := 15000, tempo_atual := 15000 }, ⟨.loop_head, u⟩) := by
  have hT : switch_tempo_estado g = 100 * (149 + 1) := by simp [switch_tempo_estado, hc]
  have h1 := dwell_trace now g u 149 hm hT (by decide)
  have h2 := dwell_run now g u 149 hm hT (by decide)
  rw [hc] at h1 h2
  exact ⟨h1, h2⟩

/-- One period of the NORMAL cycle, started in GREEN. -/
theorem ciclo_completo (now : Nat) (g : Shared) (u : Nat) (hm : g.modo_noturno = false)
    (hc : g.estado_semaforo = ESTADO_VERDE) :
    ctl_trace now 709 (g, ⟨.loop_head, u⟩) = ciclo_normal ∧
    ctl_run now 709 (g, ⟨.loop_head, u⟩) =
      ({ g with estado_semaforo := ESTADO_VERDE, aviso_troca := false,
                tempo_estado := 15000, tempo_atual := 15000 }, ⟨.loop_head, u⟩) := by
  have e : 709 = 303 + (103 + 303) := rfl
  obtain ⟨a1, a2⟩ := dwell_verde now g u hm hc
  rw [e, ctl_trace_add, ctl_run_add, ctl_trace_add, ctl_run_add, a1, a2]
  obtain ⟨b1, b2⟩ := dwell_amarelo now
    ({ g with estado_semaforo := ESTADO_AMARELO, aviso_troca := false,
              tempo_estado := 15000, tempo_atual := 15000 } : Shared) u hm rfl
  rw [b1, b2]
  obtain ⟨c1, c2⟩ := dwell_vermelho now
    ({ g with estado_semaforo := ESTADO_VERMELHO, aviso_troca := false,
              tempo_estado := 5000, tempo_atual := 5000 } : Shared) u hm rfl
  rw [c1, c2]
  simp [ciclo_normal]

/-- Any number of periods of the NORMAL cycle, started in GREEN. -/
theorem ciclos (now : Nat) (g : Shared) (u : Nat) (k : Nat) (hm : g.modo_noturno = false)
    (hc : g.estado_semaforo = ESTADO_VERDE) :
    ctl_trace now (709 * k) (g, ⟨.loop_head, u⟩) = (List.replicate k ciclo_normal).flatten := by
  induction k generalizing g with
  | zero => simp [ctl_trace]
  | succ k ih =>
    have e : 709 * (k + 1) = 709 + 709 * k := by ring
    obtain ⟨a1, a2⟩ := ciclo_completo now g u hm hc
    rw [e, ctl_trace_add, a1, a2, ih _ ?_ ?_]
    · simp [List.replicate_succ]
    · exact hm
    · rfl

/-! ## The invariant of the reachable states -/

theorem inv_init : Sys.init.inv := by
  simp [Sys.inv, Sys.init, Shared.init, Ctl.init]

/-- A step of the control task keeps the invariant. -/
theorem inv_ctl_step (now : Nat) (s : Sys) (h : s.inv) : (s.ctl_step now).inv := by
  obtain ⟨g, ⟨pc, u⟩, b⟩ := s
  obtain ⟨he, h100, hle, hentry, hT, hm⟩ := h
  simp only at he h100 hle hentry hT hm
  cases pc
  · simp [Sys.inv, Sys.ctl_step, vSemaforoControleTask, he, h100] 
    have := hentry rfl
    omega
  · have hT := hT (by simp)
    by_cases hmn : g.modo_noturno = true
    · simp only [Sys.inv, Sys.ctl_step, vSemaforoControleTask, hmn, if_true]
      split <;> simp [h100, hle, hT]
    · simp only [Sys.inv, Sys.ctl_step, vSemaforoControleTask, hmn, if_false, switch_tempo_estado]
      rcases he with he | he | he <;> simp [he]
  · have hT := hT (by simp)
    simp [Sys.inv, Sys.ctl_step, vSemaforoControleTask, he, h100, hle, hT]
  · have hT := hT (by simp)
    simp only [Sys.inv, Sys.ctl_step, vSemaforoControleTask]
    split
    · rename_i hlt
      have h1 : u32_add g.tempo_atual 100 = g.tempo_atual + 100 :=
        u32_add_of_lt (by simp only [U32]; omega)
      simp [he, hT, h1]
      omega
    · simp [he, h100, hle, hT]
  · have hT := hT (by simp)
    simp only [Sys.inv, Sys.ctl_step, vSemaforoControleTask]
    split
    · simp [he, h100, hle, hT]
    · rename_i hmn
      simp [he, h100, hle, hT]
      simpa using hmn
  · have hT := hT (by simp)
    simp only [Sys.inv, Sys.ctl_step, vSemaforoControleTask]
    split
    · rcases he with he | he | he <;> simp [he, h100, hle, hT] <;> decide
    · simp [he, h100, hle, hT]

/-- A poll of the button task keeps the invariant. -/
theorem inv_botoes_step (now : Nat) (sample : Bool) (s : Sys) (h : s.inv)
    (hs : s.ctl.pc.suspended = true) : (s.botoes_step now sample).inv := by
  obtain ⟨g, ⟨pc, u⟩, b⟩ := s
  obtain ⟨he, h100, hle, hentry, hT, hm⟩ := h
  simp only at he h100 hle hentry hT hm hs
  have hpc : pc ≠ .entry ∧ pc ≠ .while_cond := by
    cases pc <;> simp [CtlPc.suspended] at hs ⊢
  have hT := hT hpc.1
  simp only [Sys.inv, Sys.botoes_step, vBotoesTask]
  split
  · split <;> simp [he, h100, hle, hT, hpc]
  · simp [he, h100, hle, hT, hpc]

/-- Every reachable state satisfies the invariant. -/
theorem Reachable.inv {s : Sys} (h : Reachable s) : s.inv := by
  induction h with
  | init => exact inv_init
  | ctl now s _ ih => exact inv_ctl_step now s ih
  | botoes now sample s _ hs ih => exact inv_botoes_step now sample s ih hs

/-! ## C1: the NORMAL cycle -/

/-- C1. While `modo_noturno` stays false (the control task is the only writer, so the run is
`ctl_run`), with each `vTaskDelay(100)` counted as 100 ms: a dwell started at the head of the
loop in GREEN consists of exactly 150 delays of 100 ms with the colour GREEN and ends with
the write of YELLOW; in YELLOW of exactly 50 delays and ends with the write of RED; in RED
of exactly 150 delays and ends with the write of GREEN (each time the successor
`(c + 1) % 3`); the task is then back at the head of the loop, so that the delays of any
number `k` of periods started in GREEN are `k` copies of `ciclo_normal`. -/
theorem normal_cycle_order_and_dwell (now : Nat) (g : Shared) (u : Nat)
    (hm : g.modo_noturno = false) :
    (g.estado_semaforo = ESTADO_VERDE →
      ctl_trace now 303 (g, ⟨.loop_head, u⟩) = List.replicate 150 (ESTADO_VERDE, 100) ∧
      ctl_run now 303 (g, ⟨.loop_head, u⟩) =
        ({ g with estado_semaforo := Int.tmod (ESTADO_VERDE + 1) 3, aviso_troca := false,
                  tempo_estado := 15000, tempo_atual := 15000 }, ⟨.loop_head, u⟩)) ∧
    (g.estado_semaforo = ESTADO_AMARELO →
      ctl_trace now 103 (g, ⟨.loop_head, u⟩) = List.replicate 50 (ESTADO_AMARELO, 100) ∧
      ctl_run now 103 (g, ⟨.loop_head, u⟩) =
        ({ g with estado_semaforo := Int.tmod (ESTADO_AMARELO + 1) 3, aviso_troca := false,
                  tempo_estado := 5000, tempo_atual := 5000 }, ⟨.loop_head, u⟩)) ∧
    (g.estado_semaforo = ESTADO_VERMELHO →
      ctl_trace now 303 (g, ⟨.loop_head, u⟩) = List.replicate 150 (ESTADO_VERMELHO, 100) ∧
      ctl_run now 303 (g, ⟨.loop_head, u⟩) =
        ({ g with estado_semaforo := Int.tmod (ESTADO_VERMELHO + 1) 3, aviso_troca := false,
                  tempo_estado := 15000, tempo_atual := 15000 }, ⟨.loop_head, u⟩)) ∧
    (g.estado_semaforo = ESTADO_VERDE → ∀ k : Nat,
      ctl_trace now (709 * k) (g, ⟨.loop_head, u⟩) = (List.replicate k ciclo_normal).flatten) :=
  ⟨fun hc => dwell_verde now g u hm hc, fun hc => dwell_amarelo now g u hm hc,
   fun hc => dwell_vermelho now g u hm hc, fun hc k => ciclos now g u k hm hc⟩

/-- Witness of C1: two periods from the initial values of the globals. -/
theorem normal_cycle_order_and_dwell_witness :
    ctl_trace 0 (709 * 2) (Shared.init, ⟨.loop_head, 0⟩)
      = (List.replicate 2 ciclo_normal).flatten :=
  (normal_cycle_order_and_dwell 0 Shared.init 0 rfl).2.2.2 rfl 2

/-- Steps of the control task alone keep a state reachable. -/
theorem reachable_ctl_run (now n : Nat) (g : Shared) (c : Ctl) (b : Bool)
    (h : Reachable ⟨g, c, b⟩) :
    Reachable ⟨(ctl_run now n (g, c)).1, (ctl_run now n (g, c)).2, b⟩ := by
  induction n generalizing g c with
  | zero => exact h
  | succ n ih =>
    simp only [ctl_run]
    exact ih _ _ (Reachable.ctl now _ h)

/-- The states `sys_verde k` are reachable, for `k < 149`. -/
theorem reachable_verde (k : Nat) (hk : k < 149) :
    Reachable (sys_verde k) := by
  have h := reachable_ctl_run 0 (2 + 2 * (k + 1)) Shared.init Ctl.init true Reachable.init
  rw [ctl_run_add] at h
  have h2 : ctl_run 0 2 (Shared.init, Ctl.init) =
      ({ Shared.init with tempo_estado := 15000 }, ⟨.while_cond, 0⟩) := rfl
  rw [h2, wait_loop 0 _ 0 k rfl (by simp [Shared.init]; omega) (by decide)] at h
  simpa [sys_verde, Shared.init, u32_sub] using h

/-- The ceiling of `x / 1000` over the rationals, in integer arithmetic. -/
theorem nat_ceil_div_1000 (x : ℕ) : ⌈(x : ℚ) / 1000⌉₊ = (x + 999) / 1000 := by
  apply le_antisymm
  · rw [Nat.ceil_le, div_le_iff₀ (by norm_num)]
    have h : x ≤ (x + 999) / 1000 * 1000 := by omega
    exact_mod_cast h
  · rcases Nat.eq_zero_or_pos ((x + 999) / 1000) with h0 | hpos
    · rw [h0]; exact Nat.zero_le _
    · have h1 : (x + 999) / 1000 - 1 < ⌈(x : ℚ) / 1000⌉₊ := by
        rw [Nat.lt_ceil, lt_div_iff₀ (by norm_num)]
        have h : ((x + 999) / 1000 - 1) * 1000 < x := by omega
        exact_mod_cast h
      omega


/-! ## The warning flag as the control task leaves it -/

/-- The globals as a step of the control task leaves them when it blocks in a `vTaskDelay`,
in a reachable state: `aviso_troca` is true if and only if `modo_noturno` is false and
`tempo_estado - tempo_atual < 3000` (strictly; the difference is exact,
`tempo_atual <= tempo_estado`). -/
theorem aviso_troca_at_block (s : Sys) (now : Nat) (hr : Reachable s)
    (hs : (s.ctl_step now).ctl.pc.suspended = true) :
    ((s.ctl_step now).g.aviso_troca = true ↔
      ((s.ctl_step now).g.modo_noturno = false ∧
        (s.ctl_step now).g.tempo_estado - (s.ctl_step now).g.tempo_atual < 3000)) ∧
    (s.ctl_step now).g.tempo_atual ≤ (s.ctl_step now).g.tempo_estado := by
  have hi := hr.inv
  have hi2 := inv_ctl_step now s hi
  refine ⟨?_, hi2.2.2.1⟩
  obtain ⟨g, ⟨pc, u⟩, b⟩ := s
  obtain ⟨he, h100, hle, hentry, hT, hm⟩ := hi
  simp only at he h100 hle hentry hT hm
  cases pc
  · simp [Sys.ctl_step, vSemaforoControleTask, CtlPc.suspended] at hs
  · revert hs
    simp only [Sys.ctl_step, vSemaforoControleTask]
    split
    · rename_i hmn
      split <;> simp [hmn]
    · simp [CtlPc.suspended]
  · simp [Sys.ctl_step, vSemaforoControleTask, CtlPc.suspended] at hs
  · have hT := hT (by simp)
    have hm := hm rfl
    revert hs
    simp only [Sys.ctl_step, vSemaforoControleTask]
    split
    · rename_i hlt
      have h1 : u32_add g.tempo_atual 100 = g.tempo_atual + 100 :=
        u32_add_of_lt (by simp only [U32]; omega)
      have h2 : u32_sub g.tempo_estado TEMPO_AVISO = g.tempo_estado - 3000 :=
        u32_sub_of_le (by simp only [TEMPO_AVISO]; omega) (by simp only [U32]; omega)
      simp [h1, h2, hm]
      omega
    · simp [CtlPc.suspended]
  · revert hs
    simp only [Sys.ctl_step, vSemaforoControleTask]
    split <;> simp [CtlPc.suspended]
  · revert hs
    simp only [Sys.ctl_step, vSemaforoControleTask]
    split <;> simp [CtlPc.suspended]

/-! ## C3: the toggle to NIGHT -/

/-- C3 fails as stated. In the reachable state that follows `sys_verde 128` (control task
blocked at line 240, GREEN, `tempo_atual = 13000`, `aviso_troca` true) a press edge makes
`vBotoesTask` set `modo_noturno`, and `aviso_troca` is still true and `tempo_atual` still
13000 right after. -/
theorem botoes_to_night_leaves_aviso_and_tempo :
    Reachable ((sys_verde 128).ctl_step 0) ∧
    ((sys_verde 128).ctl_step 0).g.modo_noturno = false ∧
    ((sys_verde 128).ctl_step 0).ultimo_estado_botao_a = true ∧
    (((sys_verde 128).ctl_step 0).botoes_step 0 false).g.modo_noturno = true ∧
    (((sys_verde 128).ctl_step 0).botoes_step 0 false).g.aviso_troca = true ∧
    (((sys_verde 128).ctl_step 0).botoes_step 0 false).g.tempo_atual = 13000 :=
  ⟨Reachable.ctl 0 _ (reachable_verde 128 (by decide)), by decide, by decide, by decide,
   by decide, by decide⟩

/-- C3, amended. In NORMAL mode the handling of a press edge by `vBotoesTask` sets
`modo_noturno`, clears `led_aceso`, stamps `timestamp_modo_noturno`, and leaves
`aviso_troca`, `tempo_atual` and the other globals as they were. It is the control task,
blocked at line 240, that clears `aviso_troca` when it wakes up (lines 243-245); when it
blocks again, at line 210, `aviso_troca` is false and `tempo_atual` still has the value it
had before the toggle. -/
theorem botoes_to_night (now now2 : Nat) (g : Shared) (u : Nat)
    (hm : g.modo_noturno = false) :
    (vBotoesTask now false g true).1 =
      { g with modo_noturno := true, led_aceso := false,
               timestamp_modo_noturno := xTaskGetTickCount now } ∧
    (vSemaforoControleTask now2 (vBotoesTask now false g true).1 ⟨.wait_delay, u⟩).1.aviso_troca
      = false ∧
    (ctl_run now2 3 ((vBotoesTask now false g true).1, ⟨.wait_delay, u⟩)).2.pc = .night_delay ∧
    (ctl_run now2 3 ((vBotoesTask now false g true).1, ⟨.wait_delay, u⟩)).1.aviso_troca
      = false ∧
    (ctl_run now2 3 ((vBotoesTask now false g true).1, ⟨.wait_delay, u⟩)).1.tempo_atual
      = g.tempo_atual := by
  have h1 : (vBotoesTask now false g true).1 =
      { g with modo_noturno := true, led_aceso := false,
               timestamp_modo_noturno := xTaskGetTickCount now } := by
    simp [vBotoesTask, hm]
  rw [h1]
  refine ⟨rfl, ?_, ?_, ?_, ?_⟩
  · simp [vSemaforoControleTask]
  all_goals
    simp only [ctl_run, vSemaforoControleTask]
    simp
    split <;> simp

/-- Witness of C3 amended: the toggle at `tempo_atual = 13000` with the warning on. -/
theorem botoes_to_night_witness :
    (ctl_run 7 3 ((vBotoesTask 5 false ((sys_verde 128).ctl_step 0).g true).1,
        ⟨.wait_delay, 0⟩)).1.tempo_atual = 13000 :=
  (botoes_to_night 5 7 ((sys_verde 128).ctl_step 0).g 0 (by decide)).2.2.2.2

/-! ## C4: the toggle back to NORMAL -/

/-- C4. In NIGHT mode, whatever the other globals, the handling of a press edge by
`vBotoesTask` yields `modo_noturno = false`, `estado_semaforo = ESTADO_VERDE` and
`tempo_atual = 0`. The control task, which blocks in NIGHT mode at line 210, wakes up at the
head of its loop and its next step sets `tempo_estado = 15000` and `tempo_atual = 0`; the
dwell that follows is a full GREEN dwell of 150 delays of 100 ms, after which YELLOW is
written. -/
theorem botoes_to_normal (now now2 : Nat) (g : Shared) (u : Nat)
    (hm : g.modo_noturno = true) :
    (vBotoesTask now false g true).1 =
      { g with modo_noturno := false, estado_semaforo := ESTADO_VERDE, tempo_atual := 0,
               led_aceso := false, timestamp_modo_noturno := xTaskGetTickCount now } ∧
    vSemaforoControleTask now2 (vBotoesTask now false g true).1 ⟨.night_delay, u⟩ =
      ((vBotoesTask now false g true).1, ⟨.loop_head, u⟩) ∧
    vSemaforoControleTask now2 (vBotoesTask now false g true).1 ⟨.loop_head, u⟩ =
      ({ (vBotoesTask now false g true).1 with tempo_estado := 15000, tempo_atual := 0 },
       ⟨.while_cond, u⟩) ∧
    ctl_trace now2 303 ((vBotoesTask now false g true).1, ⟨.loop_head, u⟩) =
      List.replicate 150 (ESTADO_VERDE, 100) ∧
    (ctl_run now2 303 ((vBotoesTask now false g true).1, ⟨.loop_head, u⟩)).1.estado_semaforo =
      ESTADO_AMARELO := by
  have h1 : (vBotoesTask now false g true).1 =
      { g with modo_noturno := false, estado_semaforo := ESTADO_VERDE, tempo_atual := 0,
               led_aceso := false, timestamp_modo_noturno := xTaskGetTickCount now } := by
    simp [vBotoesTask, hm]
  rw [h1]
  refine ⟨rfl, rfl, ?_, ?_, ?_⟩
  · simp [vSemaforoControleTask, switch_tempo_estado]
  · exact (dwell_verde now2 _ u rfl rfl).1
  · rw [(dwell_verde now2 _ u rfl rfl).2]

/-- Witness of C4: a toggle in NIGHT mode with RED left in `estado_semaforo`, the LED on. -/
theorem botoes_to_normal_witness :
    ctl_trace 9 303 ((vBotoesTask 4 false noite_exemplo true).1, ⟨.loop_head, 3⟩) =
      List.replicate 150 (ESTADO_VERDE, 100) :=
  (botoes_to_normal 4 9 noite_exemplo 3 rfl).2.2.2.1

/-! ## C5: the countdown of the display -/

/-- C5 fails as stated. In the reachable state that follows `sys_verde 128` (GREEN,
`tempo_atual = 13000`, `tempo_estado = 15000`, the warning on) `vDisplayTask` draws
"Troca em 3s", and the ceiling of `(15000 - 13000) / 1000` is 2. -/
theorem display_countdown_not_ceil :
    Reachable ((sys_verde 128).ctl_step 0) ∧
    ((sys_verde 128).ctl_step 0).g.modo_noturno = false ∧
    ((sys_verde 128).ctl_step 0).g.aviso_troca = true ∧
    vDisplayTask ((sys_verde 128).ctl_step 0).g =
      [("SEMAFORO", 30, 10), ("Siga", 45, 30), ("Troca em 3s", 20, 50)] ∧
    tempo_restante ((sys_verde 128).ctl_step 0).g = 3 ∧
    ⌈((((sys_verde 128).ctl_step 0).g.tempo_estado
        - ((sys_verde 128).ctl_step 0).g.tempo_atual : ℕ) : ℚ) / 1000⌉₊ = 2 := by
  refine ⟨Reachable.ctl 0 _ (reachable_verde 128 (by decide)), by decide, by decide,
    by decide, by decide, ?_⟩
  rw [nat_ceil_div_1000]
  decide

/-- C5, amended. Whenever `vDisplayTask` draws the countdown line (`modo_noturno` false,
`aviso_troca` true), with `tempo_atual <= tempo_estado`, the line is the last one drawn and
the number in it is `(tempo_estado - tempo_atual) / 1000 + 1`, the integer quotient plus
one. That is the ceiling of `(tempo_estado - tempo_atual) / 1000` when the difference is not
a multiple of 1000, and the ceiling plus one when it is. -/
theorem display_countdown (g : Shared) (hm : g.modo_noturno = false)
    (ha : g.aviso_troca = true) (hle : g.tempo_atual ≤ g.tempo_estado)
    (hU : g.tempo_estado < U32) :
    (vDisplayTask g).getLast? = some ("Troca em " ++ toString (tempo_restante g) ++ "s", 20, 50) ∧
    tempo_restante g = (g.tempo_estado - g.tempo_atual) / 1000 + 1 ∧
    ((g.tempo_estado - g.tempo_atual) % 1000 ≠ 0 →
      tempo_restante g = ⌈((g.tempo_estado - g.tempo_atual : ℕ) : ℚ) / 1000⌉₊) ∧
    ((g.tempo_estado - g.tempo_atual) % 1000 = 0 →
      tempo_restante g = ⌈((g.tempo_estado - g.tempo_atual : ℕ) : ℚ) / 1000⌉₊ + 1) := by
  have h1 : tempo_restante g = (g.tempo_estado - g.tempo_atual) / 1000 + 1 := by
    simp only [tempo_restante, u32_add, u32_sub, U32] at *
    omega
  refine ⟨?_, h1, ?_, ?_⟩
  · unfold vDisplayTask
    rw [if_neg (by simp [hm]), if_pos ha, List.getLast?_concat]
  · intro h; rw [h1, nat_ceil_div_1000]; omega
  · intro h; rw [h1, nat_ceil_div_1000]; omega


/-- Witness of C5 amended: 1900 ms left, "Troca em 2s". -/
theorem display_countdown_witness :
    tempo_restante ((sys_verde 129).ctl_step 0).g =
      ⌈((((sys_verde 129).ctl_step 0).g.tempo_estado
          - ((sys_verde 129).ctl_step 0).g.tempo_atual : ℕ) : ℚ) / 1000⌉₊ :=
  (display_countdown ((sys_verde 129).ctl_step 0).g (by decide) (by decide) (by decide)
    (by decide)).2.2.1 (by decide)

/-! ## C6: debounce -/

/-- A poll on an edge: the mode is negated and the iteration takes 250 ms. -/
theorem botoes_edge (t : Nat) (g : Shared) :
    (vBotoesTask t false g true).1.modo_noturno = !g.modo_noturno ∧
    (vBotoesTask t false g true).2 = (false, 250) := by
  simp only [vBotoesTask]
  cases g.modo_noturno <;> simp

/-- A poll that is not on an edge changes nothing and takes 50 ms. -/
theorem botoes_no_edge (t : Nat) (sample : Bool) (g : Shared) (u : Bool)
    (h : ¬ (u = true ∧ sample = false)) :
    vBotoesTask t sample g u = (g, sample, 50) := by
  simp only [vBotoesTask]
  cases u <;> cases sample <;> simp at h ⊢

/-- No toggle of a run is listed before the start of the run. -/
theorem botoes_toggles_ge (samples : List Bool) (t : Nat) (g : Shared) (u : Bool) :
    ∀ x ∈ botoes_toggles t samples g u, t ≤ x := by
  induction samples generalizing t g u with
  | nil => simp [botoes_toggles]
  | cons sample samples ih =>
    intro x hx
    simp only [botoes_toggles] at hx
    split at hx
    · have := ih _ _ _ x hx; omega
    · rcases List.mem_cons.mp hx with h | h
      · omega
      · have := ih _ _ _ x h; omega

/-- With the button remembered as pressed, the first poll cannot toggle. -/
theorem botoes_toggles_after_press (samples : List Bool) (t : Nat) (g : Shared) :
    ∀ x ∈ botoes_toggles t samples g false, t + 50 ≤ x := by
  cases samples with
  | nil => simp [botoes_toggles]
  | cons sample samples =>
    intro x hx
    simp only [botoes_toggles] at hx
    rw [botoes_no_edge t sample g false (by simp)] at hx
    simp only [if_true] at hx
    exact botoes_toggles_ge _ _ _ _ x hx

/-- The toggles of any run of the button task are more than 200 ms apart. -/
theorem botoes_pairwise (samples : List Bool) (t : Nat) (g : Shared) (u : Bool) :
    List.Pairwise (fun a b => a + 200 < b) (botoes_toggles t samples g u) := by
  induction samples generalizing t g u with
  | nil => simp [botoes_toggles]
  | cons sample samples ih =>
    simp only [botoes_toggles]
    by_cases h : u = true ∧ sample = false
    · obtain ⟨hu, hs⟩ := h
      subst hu; subst hs
      obtain ⟨h1, h2⟩ := botoes_edge t g
      rw [if_neg (by rw [h1]; cases g.modo_noturno <;> simp), h2]
      refine List.pairwise_cons.mpr ⟨?_, ih _ _ _⟩
      intro x hx
      have := botoes_toggles_after_press _ _ _ x hx
      omega
    · rw [botoes_no_edge t sample g u h]
      simp only [if_true]
      exact ih _ _ _

/-- A run with three presses: toggles at 0, 300 and 650 ms. -/
theorem botoes_toggles_example :
    botoes_toggles 0 [false, true, false, false, true, false] Shared.init true = [0, 300, 650] := by
  decide

/-- C6. For every list of button samples, every starting time and every state, with the
200 ms and 50 ms delays of `vBotoesTask` counted as elapsed time: any two times at which the
task toggles `modo_noturno` are more than 200 ms apart, so of two press edges less than
200 ms apart at most one toggles the mode. After acting on an edge the task takes its next
sample 250 ms later and remembers the button as pressed. -/
theorem botoes_debounce (samples : List Bool) (t : Nat) (g : Shared) (u : Bool) :
    List.Pairwise (fun a b => a + 200 < b) (botoes_toggles t samples g u) ∧
    (vBotoesTask t false g true).2 = (false, 200 + 50) :=
  ⟨botoes_pairwise samples t g u, (botoes_edge t g).2⟩

/-! ## C7: the NIGHT flash -/

theorem pdMS_TO_TICKS_PISCA : pdMS_TO_TICKS TEMPO_PISCA = 2000 := by decide

/-- The NIGHT branch of the loop, lines 191-210, when it flips the LED. -/
theorem night_step_flip (t : Nat) (g : Shared) (u : Nat) (hm : g.modo_noturno = true)
    (h : u32_sub (xTaskGetTickCount t) u ≥ 2000) :
    vSemaforoControleTask t g ⟨.loop_head, u⟩ =
      ({ g with estado_semaforo := ESTADO_AMARELO, aviso_troca := false,
                led_aceso := !g.led_aceso, timestamp_modo_noturno := xTaskGetTickCount t },
       ⟨.night_delay, xTaskGetTickCount t⟩) := by
  simp [vSemaforoControleTask, hm, pdMS_TO_TICKS_PISCA, h]

/-- The NIGHT branch of the loop, lines 191-210, when it leaves the LED alone. -/
theorem night_step_keep (t : Nat) (g : Shared) (u : Nat) (hm : g.modo_noturno = true)
    (h : ¬ u32_sub (xTaskGetTickCount t) u ≥ 2000) :
    vSemaforoControleTask t g ⟨.loop_head, u⟩ =
      ({ g with estado_semaforo := ESTADO_AMARELO, aviso_troca := false },
       ⟨.night_delay, u⟩) := by
  simp [vSemaforoControleTask, hm, pdMS_TO_TICKS_PISCA, h]

/-- The tick difference over `d` ticks, computed in `uint32_t`. -/
theorem u32_sub_tick (f d : Nat) (hd : d < U32) :
    u32_sub (xTaskGetTickCount (f + d)) (xTaskGetTickCount f) = d := by
  simp only [u32_sub, xTaskGetTickCount, U32] at *
  omega

/-- After a flip at time `f`, polled at `f + 50 * j`: the next flip is at `f + 2000`. -/
theorem night_flips_after (n : Nat) (j f : Nat) (g : Shared) (hm : g.modo_noturno = true)
    (h1 : 1 ≤ j) (h40 : j ≤ 40) :
    List.Chain' (fun a b => b = a + 2000)
      (night_flips n (f + 50 * j) g ⟨.loop_head, xTaskGetTickCount f⟩) ∧
    ∀ x ∈ (night_flips n (f + 50 * j) g ⟨.loop_head, xTaskGetTickCount f⟩).head?,
      x = f + 2000 := by
  induction n generalizing j f g with
  | zero => simp [night_flips]
  | succ n ih =>
    have hd := u32_sub_tick f (50 * j) (by simp only [U32]; omega)
    simp only [night_flips]
    by_cases hj : j = 40
    · subst hj
      rw [night_step_flip _ g _ hm (by rw [hd])]
      simp only [vSemaforoControleTask]
      rw [if_neg (by cases g.led_aceso <;> simp)]
      obtain ⟨a, b⟩ := ih 1 (f + 50 * 40)
        ({ g with estado_semaforo := ESTADO_AMARELO, aviso_troca := false,
                  led_aceso := !g.led_aceso,
                  timestamp_modo_noturno := xTaskGetTickCount (f + 50 * 40) } : Shared)
        hm (by omega) (by omega)
      refine ⟨List.chain'_cons'.mpr ⟨?_, a⟩, by simp⟩
      intro y hy
      have := b y hy
      omega
    · rw [night_step_keep _ g _ hm (by rw [hd]; omega)]
      simp only [vSemaforoControleTask, if_true]
      have e : f + 50 * j + 50 = f + 50 * (j + 1) := by ring
      rw [e]
      exact ih (j + 1) f _ hm (by omega) (by omega)

/-- In an uninterrupted NIGHT run every flip comes 2000 ms after the one before. -/
theorem night_flips_chain (n t : Nat) (g : Shared) (u : Nat) (hm : g.modo_noturno = true) :
    List.Chain' (fun a b => b = a + 2000) (night_flips n t g ⟨.loop_head, u⟩) := by
  induction n generalizing t g u with
  | zero => simp [night_flips]
  | succ n ih =>
    simp only [night_flips]
    by_cases h : u32_sub (xTaskGetTickCount t) u ≥ 2000
    · rw [night_step_flip _ g _ hm h]
      simp only [vSemaforoControleTask]
      rw [if_neg (by cases g.led_aceso <;> simp)]
      have e : t + 50 = t + 50 * 1 := by ring
      rw [e]
      obtain ⟨a, b⟩ := night_flips_after n 1 t
        ({ g with estado_semaforo := ESTADO_AMARELO, aviso_troca := false,
                  led_aceso := !g.led_aceso,
                  timestamp_modo_noturno := xTaskGetTickCount t } : Shared)
        hm (by omega) (by omega)
      exact List.chain'_cons'.mpr ⟨b, a⟩
    · rw [night_step_keep _ g _ hm h]
      simp only [vSemaforoControleTask, if_true]
      exact ih _ _ _ hm

/-- C7. In a NIGHT step of `vSemaforoControleTask` at tick `t` (lines 191-210, the threshold
`pdMS_TO_TICKS(TEMPO_PISCA)` being 2000 ticks): `led_aceso` is flipped if and only if
`t - ultimo_tick_modo_noturno >= 2000` in `uint32_t` arithmetic; on a flip both
`ultimo_tick_modo_noturno` and `timestamp_modo_noturno` are set to `t`, otherwise both keep
their values; and in an uninterrupted NIGHT run polled every 50 ms every flip of `led_aceso`
comes exactly 2000 ms after the flip before it. -/
theorem night_led_flip (t : Nat) (g : Shared) (u : Nat) (hm : g.modo_noturno = true) :
    pdMS_TO_TICKS TEMPO_PISCA = 2000 ∧
    ((vSemaforoControleTask t g ⟨.loop_head, u⟩).1.led_aceso = (!g.led_aceso) ↔
      u32_sub (xTaskGetTickCount t) u ≥ 2000) ∧
    (u32_sub (xTaskGetTickCount t) u ≥ 2000 →
      (vSemaforoControleTask t g ⟨.loop_head, u⟩).2.ultimo_tick_modo_noturno
        = xTaskGetTickCount t ∧
      (vSemaforoControleTask t g ⟨.loop_head, u⟩).1.timestamp_modo_noturno
        = xTaskGetTickCount t) ∧
    (¬ u32_sub (xTaskGetTickCount t) u ≥ 2000 →
      (vSemaforoControleTask t g ⟨.loop_head, u⟩).2.ultimo_tick_modo_noturno = u ∧
      (vSemaforoControleTask t g ⟨.loop_head, u⟩).1.timestamp_modo_noturno
        = g.timestamp_modo_noturno) ∧
    (∀ n : Nat, List.Chain' (fun a b => b = a + 2000) (night_flips n t g ⟨.loop_head, u⟩)) := by
  refine ⟨pdMS_TO_TICKS_PISCA, ?_, ?_, ?_, fun n => night_flips_chain n t g u hm⟩
  · by_cases h : u32_sub (xTaskGetTickCount t) u ≥ 2000
    · rw [night_step_flip t g u hm h]; simp [h]
    · rw [night_step_keep t g u hm h]
      simp only [h, iff_false]
      cases g.led_aceso <;> simp
  · intro h
    rw [night_step_flip t g u hm h]
    exact ⟨rfl, rfl⟩
  · intro h
    rw [night_step_keep t g u hm h]
    exact ⟨rfl, rfl⟩

/-- Witness of C7: a NIGHT run of 130 polls started at 1000 ms. -/
theorem night_led_flip_witness :
    List.Chain' (fun a b => b = a + 2000)
      (night_flips 130 1000 noite_exemplo ⟨.loop_head, 0⟩) :=
  (night_led_flip 1000 noite_exemplo 0 rfl).2.2.2.2 130

/-! ## C8: the NIGHT tone -/

/-- C8. In NIGHT mode a cycle of `vBuzzerTask` at tick `t` sounds a tone if and only if
`led_aceso` is true and `t - timestamp_modo_noturno < 200` in `uint32_t` arithmetic: it
then programs the slice for 800 Hz, holds the level for 200 ms and sets it back to 0;
every other NIGHT cycle sets the level to 0 and waits 50 ms. After a tone at `t`, as long as
`timestamp_modo_noturno` is not rewritten, every NIGHT cycle started 200 ms or more after
`t` is silent, the next cycle (at `t + 200`) first. -/
theorem buzzer_night (t : Nat) (g : Shared) (hm : g.modo_noturno = true) :
    ((g.led_aceso = true ∧ u32_sub (xTaskGetTickCount t) g.timestamp_modo_noturno < 200) →
      vBuzzerTask t g =
        [.pwm_set_clkdiv 20, .pwm_set_wrap 7811, .pwm_set_gpio_level 3905, .vTaskDelay 200,
         .pwm_set_gpio_level 0]) ∧
    (¬ (g.led_aceso = true ∧ u32_sub (xTaskGetTickCount t) g.timestamp_modo_noturno < 200) →
      vBuzzerTask t g = [.pwm_set_gpio_level 0, .vTaskDelay 50]) ∧
    (u32_sub (xTaskGetTickCount t) g.timestamp_modo_noturno < 200 →
      ∀ (g2 : Shared) (dt : Nat), g2.modo_noturno = true →
        g2.timestamp_modo_noturno = g.timestamp_modo_noturno → 200 ≤ dt → dt ≤ 4000000000 →
        vBuzzerTask (t + dt) g2 = [.pwm_set_gpio_level 0, .vTaskDelay 50]) := by
  have h200 : pdMS_TO_TICKS 200 = 200 := by decide
  refine ⟨?_, ?_, ?_⟩
  · rintro ⟨h1, h2⟩
    simp [vBuzzerTask, hm, h1, h2, h200, buzzer_tone, buzzer_wrap]
  · intro h
    simp only [vBuzzerTask, hm, if_true, h200]
    rw [if_neg]
    simpa using h
  · intro h g2 dt hm2 hts h1 h2
    simp only [vBuzzerTask, hm2, if_true, h200, hts]
    rw [if_neg]
    simp only [Bool.and_eq_true, decide_eq_true_eq, not_and, not_lt]
    intro _
    simp only [u32_sub, xTaskGetTickCount, U32] at *
    omega


/-- Witness of C8: tone at 100 ms after the LED came on at 0, silence in the next cycle. -/
theorem buzzer_night_witness :
    vBuzzerTask (100 + 200) noite_exemplo = [.pwm_set_gpio_level 0, .vTaskDelay 50] :=
  (buzzer_night 100 noite_exemplo rfl).2.2 (by decide) noite_exemplo 200 rfl rfl (by decide)
    (by decide)

/-! ## C9: the status LED -/

/-- C9. One cycle of `vLedRgbTask`, for every state and phase `p` of the task: in NIGHT mode
it drives (0,0,0) whatever `aviso_troca` and the colour are; in NORMAL mode without warning
it drives (0,0,0); in NORMAL mode with the warning it flips the phase and drives, with the
new phase, (0,p,0) in GREEN, (p,p,0) in YELLOW and (p,0,0) in RED; every cycle waits 100 ms;
no cycle lights the blue channel. -/
theorem led_rgb_cycle (g : Shared) (p : Bool) :
    vLedRgbTask { g with modo_noturno := true } p = (some (false, false, false), p, 100) ∧
    vLedRgbTask { g with modo_noturno := false, aviso_troca := false } p =
      (some (false, false, false), p, 100) ∧
    vLedRgbTask { g with modo_noturno := false, aviso_troca := true,
                         estado_semaforo := ESTADO_VERDE } p =
      (some (false, !p, false), !p, 100) ∧
    vLedRgbTask { g with modo_noturno := false, aviso_troca := true,
                         estado_semaforo := ESTADO_AMARELO } p =
      (some (!p, !p, false), !p, 100) ∧
    vLedRgbTask { g with modo_noturno := false, aviso_troca := true,
                         estado_semaforo := ESTADO_VERMELHO } p =
      (some (!p, false, false), !p, 100) ∧
    (∀ r v b, (vLedRgbTask g p).1 = some (r, v, b) → b = false) := by
  refine ⟨by simp [vLedRgbTask], by simp [vLedRgbTask], by simp [vLedRgbTask],
    by simp [vLedRgbTask], by simp [vLedRgbTask], ?_⟩
  intro r v b h
  simp only [vLedRgbTask] at h
  split at h
  · simp at h; exact h.2.2
  · split at h
    · simp only at h
      split at h
      · simp at h; exact h.2.2
      · split at h
        · simp at h; exact h.2.2
        · split at h
          · simp at h; exact h.2.2
          · simp at h
    · simp at h; exact h.2.2

/-! ## C10: the GREEN scenario -/

/-- The first step of a GREEN dwell in NORMAL mode. -/
theorem verde_first_step (now : Nat) (g : Shared) (u : Nat) (hm : g.modo_noturno = false)
    (hc : g.estado_semaforo = ESTADO_VERDE) :
    ctl_run now 1 (g, ⟨.loop_head, u⟩) =
      ({ g with tempo_estado := 15000, tempo_atual := 0 }, ⟨.while_cond, u⟩) := by
  simp [ctl_run, vSemaforoControleTask, hm, hc, switch_tempo_estado]

/-- The globals at the delay of pass `k + 1` of a GREEN dwell in NORMAL mode. -/
theorem verde_suspended (now : Nat) (g : Shared) (u : Nat) (k : Nat)
    (hm : g.modo_noturno = false) (hc : g.estado_semaforo = ESTADO_VERDE) (hk : k < 150) :
    ctl_run now (1 + (2 * k + 1)) (g, ⟨.loop_head, u⟩) =
      ({ g with tempo_estado := 15000, tempo_atual := 100 * (k + 1),
                aviso_troca := decide (100 * k ≥ 12000) }, ⟨.wait_delay, u⟩) := by
  rw [ctl_run_add, verde_first_step now g u hm hc, wait_loop_suspended now _ u k ?_ ?_ ?_]
  · have h2 : u32_sub 15000 TEMPO_AVISO = 12000 := by decide
    simp [h2]
  · exact hm
  · simp only; omega
  · simp only [U32]; omega

/-- The delays up to pass `k + 1` of a GREEN dwell in NORMAL mode. -/
theorem verde_trace (now : Nat) (g : Shared) (u : Nat) (k : Nat)
    (hm : g.modo_noturno = false) (hc : g.estado_semaforo = ESTADO_VERDE) (hk : k < 150) :
    ctl_trace now (1 + (2 * k + 1)) (g, ⟨.loop_head, u⟩) =
      List.replicate (k + 1) (ESTADO_VERDE, 100) := by
  have h0 : ctl_trace now 1 (g, ⟨.loop_head, u⟩) = [] := by
    simp [ctl_trace, vSemaforoControleTask, hm, CtlPc.suspended]
  have hb : ∀ g1 : Shared, g1.estado_semaforo = ESTADO_VERDE → g1.tempo_atual < g1.tempo_estado →
      g1.tempo_estado + 100 ≤ U32 →
      ctl_trace now 1 (g1, ⟨.while_cond, u⟩) = [(ESTADO_VERDE, 100)] := by
    intro g1 h1 h2 h3
    simp only [ctl_trace]
    rw [wait_body now g1 u h2 h3]
    simp [CtlPc.suspended, CtlPc.delay_ms, h1]
  rw [ctl_trace_add, verde_first_step now g u hm hc, h0, ctl_trace_add,
    wait_loop_trace now _ u k ?_ ?_ ?_, List.nil_append]
  · cases k with
    | zero =>
      simp only [ctl_run]
      rw [hb _ ?_ ?_ ?_]
      · rfl
      · exact hc
      · simp only; omega
      · simp only [U32]; omega
    | succ k =>
      rw [wait_loop now _ u k ?_ ?_ ?_, hb _ ?_ ?_ ?_]
      · simp only [hc]
        rw [← List.replicate_succ']
      · exact hc
      · simp only; omega
      · simp only [U32]; omega
      · exact hm
      · simp only; omega
      · simp only [U32]; omega
  · exact hm
  · simp only; omega
  · simp only [U32]; omega


/-- C10. From the head of the loop in NORMAL mode with GREEN, and no toggle of the mode:
* in the 120th delay, which ends when 12000 ms of delays have elapsed, `tempo_atual` is
  12000, `aviso_troca` is false and `vDisplayTask` draws the title and "Siga" only;
* in the next delay, `tempo_atual` is 12100, `aviso_troca` is true and `vDisplayTask` draws
  the line "Troca em 3s";
* after the 150th delay, that is once 15000 ms of delays have elapsed and before any other
  delay, the colour is YELLOW, `tempo_atual` has been reset to 0 and `aviso_troca` is
  false; the task then blocks with YELLOW, `tempo_atual = 100` and no warning. -/
theorem cenario_verde (now : Nat) (g : Shared) (u : Nat) (hm : g.modo_noturno = false)
    (hc : g.estado_semaforo = ESTADO_VERDE) :
    (ctl_trace now 240 (g, ⟨.loop_head, u⟩) = List.replicate 120 (ESTADO_VERDE, 100) ∧
     ctl_run now 240 (g, ⟨.loop_head, u⟩) =
      ({ g with tempo_estado := 15000, tempo_atual := 12000, aviso_troca := false },
       ⟨.wait_delay, u⟩) ∧
     vDisplayTask (ctl_run now 240 (g, ⟨.loop_head, u⟩)).1 =
      [("SEMAFORO", 30, 10), ("Siga", 45, 30)]) ∧
    (ctl_trace now 242 (g, ⟨.loop_head, u⟩) = List.replicate 121 (ESTADO_VERDE, 100) ∧
     ctl_run now 242 (g, ⟨.loop_head, u⟩) =
      ({ g with tempo_estado := 15000, tempo_atual := 12100, aviso_troca := true },
       ⟨.wait_delay, u⟩) ∧
     vDisplayTask (ctl_run now 242 (g, ⟨.loop_head, u⟩)).1 =
      [("SEMAFORO", 30, 10), ("Siga", 45, 30), ("Troca em 3s", 20, 50)]) ∧
    (ctl_trace now 304 (g, ⟨.loop_head, u⟩) = List.replicate 150 (ESTADO_VERDE, 100) ∧
     ctl_run now 304 (g, ⟨.loop_head, u⟩) =
      ({ g with estado_semaforo := ESTADO_AMARELO, tempo_estado := 5000, tempo_atual := 0,
                aviso_troca := false }, ⟨.while_cond, u⟩) ∧
     ctl_run now 305 (g, ⟨.loop_head, u⟩) =
      ({ g with estado_semaforo := ESTADO_AMARELO, tempo_estado := 5000, tempo_atual := 100,
                aviso_troca := false }, ⟨.wait_delay, u⟩)) := by
  have h240 := verde_suspended now g u 119 hm hc (by decide)
  have h242 := verde_suspended now g u 120 hm hc (by decide)
  have h300 := verde_suspended now g u 149 hm hc (by decide)
  have t240 := verde_trace now g u 119 hm hc (by decide)
  have t242 := verde_trace now g u 120 hm hc (by decide)
  have t300 := verde_trace now g u 149 hm hc (by decide)
  have e240 : 1 + (2 * 119 + 1) = 240 := rfl
  have e242 : 1 + (2 * 120 + 1) = 242 := rfl
  have e300 : 1 + (2 * 149 + 1) = 300 := rfl
  rw [e240] at h240 t240
  rw [e242] at h242 t242
  rw [e300] at h300 t300
  have e304 : 304 = 300 + 4 := rfl
  have ht : Int.tmod 1 3 = 1 := by decide
  have h304 : ctl_run now 304 (g, ⟨.loop_head, u⟩) =
      ({ g with estado_semaforo := ESTADO_AMARELO, tempo_estado := 5000, tempo_atual := 0,
                aviso_troca := false }, ⟨.while_cond, u⟩) := by
    rw [e304, ctl_run_add, h300]
    simp [ctl_run, vSemaforoControleTask, hm, hc, switch_tempo_estado, ht]
  refine ⟨⟨t240, h240, ?_⟩, ⟨t242, h242, ?_⟩, ⟨?_, h304, ?_⟩⟩
  · rw [h240]; simp [vDisplayTask, hm, hc]
  · rw [h242]
    simp [vDisplayTask, hm, hc, tempo_restante, u32_sub, u32_add]
    decide
  · rw [e304, ctl_trace_add, h300, t300]
    simp [ctl_trace, vSemaforoControleTask, hm, hc, CtlPc.suspended]
  · have e : 305 = 304 + 1 := rfl
    rw [e, ctl_run_add, h304]
    simp [ctl_run, vSemaforoControleTask, u32_add, u32_sub]

/-- Witness of C10: the scenario from the initial values of the globals. -/
theorem cenario_verde_witness :
    vDisplayTask (ctl_run 0 242 (Shared.init, ⟨.loop_head, 0⟩)).1 =
      [("SEMAFORO", 30, 10), ("Siga", 45, 30), ("Troca em 3s", 20, 50)] :=
  (cenario_verde 0 Shared.init 0 rfl rfl).2.1.2.2

/-! ## C11: the LED panel -/

/-- A frame is `NUM_PIXELS = 25` copies of one word. -/
theorem display_matriz_replicate (r v b : Nat) :
    display_matriz r v b = List.replicate 25 (put_pixel (urgb_u32 r v b)) := by
  simp only [display_matriz, List.map_const', List.length_range]

/-- The word of a pixel, for components that fit a byte: green, red, blue from the top. -/
theorem put_pixel_urgb (r v b : Nat) (hr : r < 256) (hv : v < 256) (hb : b < 256) :
    put_pixel (urgb_u32 r v b) = (v * 65536 + r * 256 + b) * 256 := by
  have h1 : 2 ^ 16 * v + r * 2 ^ 8 = 2 ^ 16 * v ||| r * 2 ^ 8 :=
    Nat.mul_add_lt_is_or (by omega) v
  have h2 : 2 ^ 8 * (2 ^ 8 * v + r) + b = 2 ^ 8 * (2 ^ 8 * v + r) ||| b :=
    Nat.mul_add_lt_is_or (by omega) _
  have e1 : (v % 256) <<< 16 % U32 = 2 ^ 16 * v := by
    rw [Nat.mod_eq_of_lt hv, Nat.shiftLeft_eq, Nat.mod_eq_of_lt (by simp only [U32]; omega)]
    ring
  have e2 : (r % 256) <<< 8 % U32 = r * 2 ^ 8 := by
    rw [Nat.mod_eq_of_lt hr, Nat.shiftLeft_eq, Nat.mod_eq_of_lt (by simp only [U32]; omega)]
  have e3 : 2 ^ 16 * v + r * 2 ^ 8 = 2 ^ 8 * (2 ^ 8 * v + r) := by ring
  unfold put_pixel urgb_u32
  rw [e1, e2, Nat.mod_eq_of_lt hb, ← h1, e3, ← h2, Nat.shiftLeft_eq,
    Nat.mod_eq_of_lt (by simp only [U32]; omega)]
  ring

/-- C11. One cycle of `vMatrizLedsTask`, for every state: in NORMAL mode it writes the frame
`display_matriz 0 10 0` in GREEN, `display_matriz 10 10 0` in YELLOW and
`display_matriz 10 0 0` in RED; in NIGHT mode `display_matriz 10 10 0` when `led_aceso` is
true and `display_matriz 0 0 0` when it is false, whatever `estado_semaforo` is; it then
waits 50 ms. A frame is exactly 25 copies of one word, which carries the components green,
red, blue in its three upper bytes. The frame depends on `modo_noturno`, `estado_semaforo`
and `led_aceso` only, so two cycles run on equal inputs write equal frames. (A colour outside
0, 1, 2 would take no case of the `switch`; no reachable state has one.) -/
theorem matriz_frame (g : Shared) :
    (vMatrizLedsTask { g with modo_noturno := false, estado_semaforo := ESTADO_VERDE }
      = (display_matriz 0 10 0, 50) ∧
     vMatrizLedsTask { g with modo_noturno := false, estado_semaforo := ESTADO_AMARELO }
      = (display_matriz 10 10 0, 50) ∧
     vMatrizLedsTask { g with modo_noturno := false, estado_semaforo := ESTADO_VERMELHO }
      = (display_matriz 10 0 0, 50) ∧
     vMatrizLedsTask { g with modo_noturno := true, led_aceso := true }
      = (display_matriz 10 10 0, 50) ∧
     vMatrizLedsTask { g with modo_noturno := true, led_aceso := false }
      = (display_matriz 0 0 0, 50)) ∧
    (∀ r v b : Nat, display_matriz r v b = List.replicate 25 (put_pixel (urgb_u32 r v b))) ∧
    (∀ r v b : Nat, r < 256 → v < 256 → b < 256 →
      put_pixel (urgb_u32 r v b) = (v * 65536 + r * 256 + b) * 256) ∧
    (put_pixel (urgb_u32 0 10 0) = (10 * 65536 + 0 * 256 + 0) * 256 ∧
     put_pixel (urgb_u32 10 10 0) = (10 * 65536 + 10 * 256 + 0) * 256 ∧
     put_pixel (urgb_u32 10 0 0) = (0 * 65536 + 10 * 256 + 0) * 256 ∧
     put_pixel (urgb_u32 0 0 0) = (0 * 65536 + 0 * 256 + 0) * 256) ∧
    (∀ g1 g2 : Shared, g1.modo_noturno = g2.modo_noturno →
      g1.estado_semaforo = g2.estado_semaforo → g1.led_aceso = g2.led_aceso →
      vMatrizLedsTask g1 = vMatrizLedsTask g2) := by
  refine ⟨⟨by simp [vMatrizLedsTask], by simp [vMatrizLedsTask], by simp [vMatrizLedsTask],
    by simp [vMatrizLedsTask], by simp [vMatrizLedsTask]⟩, display_matriz_replicate,
    put_pixel_urgb, ⟨by decide, by decide, by decide, by decide⟩, ?_⟩
  intro g1 g2 h1 h2 h3
  simp [vMatrizLedsTask, h1, h2, h3]

/-! ## C12: the text frame -/

/-- C12. One cycle of `vDisplayTask`, for every state: in NIGHT mode it draws
"MODO NOTURNO" and "Atencao" and nothing else, whatever `aviso_troca` is; in NORMAL mode it
draws the title "SEMAFORO", then "Siga" in GREEN, "Atencao" in YELLOW, "Pare" in RED, and
then the countdown line "Troca em <n>s" if `aviso_troca` is true and no third line if it is
false. -/
theorem display_frame (g : Shared) :
    vDisplayTask { g with modo_noturno := true }
      = [("MODO NOTURNO", 20, 20), ("Atencao", 35, 40)] ∧
    (vDisplayTask { g with modo_noturno := false, estado_semaforo := ESTADO_VERDE,
                           aviso_troca := false }
      = [("SEMAFORO", 30, 10), ("Siga", 45, 30)] ∧
     vDisplayTask { g with modo_noturno := false, estado_semaforo := ESTADO_AMARELO,
                           aviso_troca := false }
      = [("SEMAFORO", 30, 10), ("Atencao", 35, 30)] ∧
     vDisplayTask { g with modo_noturno := false, estado_semaforo := ESTADO_VERMELHO,
                           aviso_troca := false }
      = [("SEMAFORO", 30, 10), ("Pare", 45, 30)]) ∧
    (vDisplayTask { g with modo_noturno := false, estado_semaforo := ESTADO_VERDE,
                           aviso_troca := true }
      = [("SEMAFORO", 30, 10), ("Siga", 45, 30),
         ("Troca em " ++ toString (tempo_restante g) ++ "s", 20, 50)] ∧
     vDisplayTask { g with modo_noturno := false, estado_semaforo := ESTADO_AMARELO,
                           aviso_troca := true }
      = [("SEMAFORO", 30, 10), ("Atencao", 35, 30),
         ("Troca em " ++ toString (tempo_restante g) ++ "s", 20, 50)] ∧
     vDisplayTask { g with modo_noturno := false, estado_semaforo := ESTADO_VERMELHO,
                           aviso_troca := true }
      = [("SEMAFORO", 30, 10), ("Pare", 45, 30),
         ("Troca em " ++ toString (tempo_restante g) ++ "s", 20, 50)]) := by
  refine ⟨by simp [vDisplayTask], ⟨by simp [vDisplayTask], by simp [vDisplayTask],
    by simp [vDisplayTask]⟩, ⟨?_, ?_, ?_⟩⟩ <;> simp [vDisplayTask, tempo_restante]

/-! ## C13: the NORMAL tones -/

/-- C13. One cycle of `vBuzzerTask` in NORMAL mode, by the colour at its start: GREEN is a
tone of 100 ms and 900 ms of silence, YELLOW a tone of 100 ms and 100 ms of silence, RED a
tone of 500 ms and 1500 ms of silence. A cycle is a function of the mode and colour read at
its start: no state of the task is carried from one cycle to the next. -/
theorem buzzer_normal (now : Nat) (g : Shared) :
    vBuzzerTask now { g with modo_noturno := false, estado_semaforo := ESTADO_VERDE } =
      [.pwm_set_clkdiv 20, .pwm_set_wrap 6249, .pwm_set_gpio_level 3124, .vTaskDelay 100,
       .pwm_set_gpio_level 0, .vTaskDelay 900] ∧
    vBuzzerTask now { g with modo_noturno := false, estado_semaforo := ESTADO_AMARELO } =
      [.pwm_set_clkdiv 20, .pwm_set_wrap 5207, .pwm_set_gpio_level 2603, .vTaskDelay 100,
       .pwm_set_gpio_level 0, .vTaskDelay 100] ∧
    vBuzzerTask now { g with modo_noturno := false, estado_semaforo := ESTADO_VERMELHO } =
      [.pwm_set_clkdiv 20, .pwm_set_wrap 4165, .pwm_set_gpio_level 2082, .vTaskDelay 500,
       .pwm_set_gpio_level 0, .vTaskDelay 1500] ∧
    (∀ (now2 : Nat) (g2 : Shared), g.modo_noturno = false → g2.modo_noturno = false →
      g2.estado_semaforo = g.estado_semaforo → vBuzzerTask now2 g2 = vBuzzerTask now g) := by
  refine ⟨by simp [vBuzzerTask, buzzer_tone, buzzer_wrap],
    by simp [vBuzzerTask, buzzer_tone, buzzer_wrap],
    by simp [vBuzzerTask, buzzer_tone, buzzer_wrap], ?_⟩
  intro now2 g2 h1 h2 h3
  simp [vBuzzerTask, h1, h2, h3]

/-! ## C14: the colour in NIGHT mode -/

/-- The state `sys_noite_verde` is reachable. -/
theorem reachable_noite_verde : Reachable sys_noite_verde :=
  Reachable.ctl _ _ (Reachable.ctl _ _ (Reachable.botoes _ _ _
    (Reachable.ctl 0 _ (reachable_verde 128 (by decide))) (by decide)))

/-- C14 fails as stated. The state `sys_noite_verde` is reachable: NIGHT mode, control task
at the head of its loop, GREEN in `estado_semaforo`. The NIGHT step taken there ends in the
delay of line 210 with YELLOW in `estado_semaforo` (line 192). -/
theorem night_step_rewrites_colour :
    Reachable sys_noite_verde ∧
    sys_noite_verde.ctl.pc = .loop_head ∧
    sys_noite_verde.g.modo_noturno = true ∧
    sys_noite_verde.g.estado_semaforo = ESTADO_VERDE ∧
    (sys_noite_verde.ctl_step 13000).ctl.pc = .night_delay ∧
    (sys_noite_verde.ctl_step 13000).g.estado_semaforo = ESTADO_AMARELO ∧
    (sys_noite_verde.ctl_step 13000).g.estado_semaforo ≠ sys_noite_verde.g.estado_semaforo :=
  ⟨reachable_noite_verde, by decide, by decide, by decide, by decide, by decide, by decide⟩

/-- C14, amended. For every state with `modo_noturno` true, a NIGHT step of
`vSemaforoControleTask` (lines 191-210) sets `estado_semaforo` to `ESTADO_AMARELO`, whatever
it was; the colour is as before the step exactly when it was YELLOW already. The wake-up
from the delay of line 210 changes nothing. -/
theorem night_step_colour (now : Nat) (g : Shared) (u : Nat) (hm : g.modo_noturno = true) :
    (vSemaforoControleTask now g ⟨.loop_head, u⟩).2.pc = .night_delay ∧
    (vSemaforoControleTask now g ⟨.loop_head, u⟩).1.estado_semaforo = ESTADO_AMARELO ∧
    ((vSemaforoControleTask now g ⟨.loop_head, u⟩).1.estado_semaforo = g.estado_semaforo ↔
      g.estado_semaforo = ESTADO_AMARELO) ∧
    vSemaforoControleTask now g ⟨.night_delay, u⟩ = (g, ⟨.loop_head, u⟩) := by
  have h : (vSemaforoControleTask now g ⟨.loop_head, u⟩).2.pc = .night_delay ∧
      (vSemaforoControleTask now g ⟨.loop_head, u⟩).1.estado_semaforo = ESTADO_AMARELO := by
    simp only [vSemaforoControleTask, hm, if_true]
    split <;> simp
  refine ⟨h.1, h.2, ?_, rfl⟩
  rw [h.2]
  exact eq_comm

/-- Witness of C14 amended: the NIGHT step in `sys_noite_verde`. -/
theorem night_step_colour_witness :
    (vSemaforoControleTask 13000 sys_noite_verde.g ⟨.loop_head, 0⟩).1.estado_semaforo
      = ESTADO_AMARELO :=
  (night_step_colour 13000 sys_noite_verde.g 0 (by decide)).2.1

/-! ## C15: `tempo_atual` against `tempo_estado` -/

/-- C15 fails as stated. The state `sys_verde 148` is reachable; the step the control task
takes there ends in the delay of line 240, in NORMAL mode, with
`tempo_atual = tempo_estado = 15000`: the last delay of the GREEN dwell. -/
theorem tempo_atual_reaches_tempo_estado :
    Reachable (sys_verde 148) ∧
    ((sys_verde 148).ctl_step 0).ctl.pc = .wait_delay ∧
    ((sys_verde 148).ctl_step 0).g.modo_noturno = false ∧
    ((sys_verde 148).ctl_step 0).g.tempo_atual = 15000 ∧
    ((sys_verde 148).ctl_step 0).g.tempo_estado = 15000 ∧
    ¬ ((sys_verde 148).ctl_step 0).g.tempo_atual < ((sys_verde 148).ctl_step 0).g.tempo_estado :=
  ⟨reachable_verde 148 (by decide), by decide, by decide, by decide, by decide, by decide⟩

/-- C15, amended. In every reachable state, when a step of the control task ends in the
delay of the wait loop (line 240), the globals it leaves satisfy `modo_noturno = false` and
`100 <= tempo_atual <= tempo_estado`; equality is not excluded. -/
theorem tempo_atual_le_at_wait (s : Sys) (now : Nat) (hr : Reachable s)
    (hs : (s.ctl_step now).ctl.pc = .wait_delay) :
    (s.ctl_step now).g.modo_noturno = false ∧
    100 ≤ (s.ctl_step now).g.tempo_atual ∧
    (s.ctl_step now).g.tempo_atual ≤ (s.ctl_step now).g.tempo_estado := by
  have hi := hr.inv
  have hi2 := inv_ctl_step now s hi
  refine ⟨?_, ?_, hi2.2.2.1⟩
  all_goals
    obtain ⟨g, ⟨pc, u⟩, b⟩ := s
    obtain ⟨he, h100, hle, hentry, hT, hm⟩ := hi
    simp only at he h100 hle hentry hT hm
    cases pc
    case while_cond =>
      have hT := hT (by simp)
      have hm := hm rfl
      revert hs
      simp only [Sys.ctl_step, vSemaforoControleTask]
      split
      · rename_i hlt
        have h1 : u32_add g.tempo_atual 100 = g.tempo_atual + 100 :=
          u32_add_of_lt (by simp only [U32]; omega)
        simp [h1, hm]
      · simp
    all_goals
      revert hs
      simp only [Sys.ctl_step, vSemaforoControleTask]
      try split
      all_goals try split
      all_goals simp

/-- Witness of C15 amended: the last delay of the GREEN dwell. -/
theorem tempo_atual_le_at_wait_witness :
    ((sys_verde 148).ctl_step 0).g.tempo_atual ≤ ((sys_verde 148).ctl_step 0).g.tempo_estado :=
  (tempo_atual_le_at_wait (sys_verde 148) 0 (reachable_verde 148 (by decide))
    (by decide)).2.2

/-! ## C16: a poll of the button -/

/-- C16. One poll of `vBotoesTask` at time `now`, for every state: when the sample before
was released and this one is pressed, `modo_noturno` is negated, `led_aceso` is set to false
and `timestamp_modo_noturno` to the tick count; for every other pair of samples (released
after released, released after pressed, pressed after pressed) the globals are left as they
were and the task waits 50 ms. -/
theorem botoes_poll (now : Nat) (g : Shared) :
    (vBotoesTask now false g true).1.modo_noturno = (!g.modo_noturno) ∧
    (vBotoesTask now false g true).1.led_aceso = false ∧
    (vBotoesTask now false g true).1.timestamp_modo_noturno = xTaskGetTickCount now ∧
    vBotoesTask now true g true = (g, true, 50) ∧
    vBotoesTask now true g false = (g, true, 50) ∧
    vBotoesTask now false g false = (g, false, 50) := by
  refine ⟨?_, ?_, ?_, by simp [vBotoesTask], by simp [vBotoesTask], by simp [vBotoesTask]⟩
  all_goals
    simp only [vBotoesTask]
    cases g.modo_noturno <;> simp

/-! ## C17: the wait loop is left on a toggle -/

/-- C17. If `modo_noturno` is true when the control task wakes up from the delay of the wait
loop (line 240), then, for every colour and every `tempo_atual` and `tempo_estado`
(`tempo_atual >= tempo_estado` included): the task clears `aviso_troca` and leaves the loop
(lines 243-246), line 250 does not advance the colour, and the task is at the head of its
loop with all other globals unchanged. (The NIGHT step that follows writes YELLOW,
line 192.) -/
theorem wait_interrupted (now : Nat) (g : Shared) (u : Nat) (hm : g.modo_noturno = true) :
    vSemaforoControleTask now g ⟨.wait_delay, u⟩ =
      ({ g with aviso_troca := false }, ⟨.after_while, u⟩) ∧
    ctl_run now 2 (g, ⟨.wait_delay, u⟩) = ({ g with aviso_troca := false }, ⟨.loop_head, u⟩) ∧
    (ctl_run now 2 (g, ⟨.wait_delay, u⟩)).1.estado_semaforo = g.estado_semaforo := by
  have h1 : vSemaforoControleTask now g ⟨.wait_delay, u⟩ =
      ({ g with aviso_troca := false }, ⟨.after_while, u⟩) := by
    simp [vSemaforoControleTask, hm]
  have h2 : ctl_run now 2 (g, ⟨.wait_delay, u⟩) =
      ({ g with aviso_troca := false }, ⟨.loop_head, u⟩) := by
    simp [ctl_run, vSemaforoControleTask, hm]
  exact ⟨h1, h2, by rw [h2]⟩

/-- Witness of C17: the toggle falls in the delay in which `tempo_atual` has reached
`tempo_estado`. -/
theorem wait_interrupted_witness :
    (ctl_run 15000 2 ((((sys_verde 148).ctl_step 0).botoes_step 15000 false).g,
        ⟨.wait_delay, 0⟩)).1.estado_semaforo = ESTADO_VERDE :=
  (wait_interrupted 15000 (((sys_verde 148).ctl_step 0).botoes_step 15000 false).g 0
    (by decide)).2.2

/-! ## C18: no wrap-around -/

/-- C18. In every reachable state (steps of the control task and polls of the button task
in any order): `tempo_atual <= tempo_estado < 2^32`, so the `uint32_t` difference
`tempo_estado - tempo_atual` of `vDisplayTask` is the true difference; and where the control
task computes the warning threshold (the test of the wait loop), `tempo_estado >= 3000`, so
`tempo_estado - TEMPO_AVISO` is the true difference too. -/
theorem no_wraparound (s : Sys) (hr : Reachable s) :
    s.g.tempo_atual ≤ s.g.tempo_estado ∧
    s.g.tempo_estado < U32 ∧
    u32_sub s.g.tempo_estado s.g.tempo_atual = s.g.tempo_estado - s.g.tempo_atual ∧
    (s.ctl.pc = .while_cond →
      TEMPO_AVISO ≤ s.g.tempo_estado ∧
      u32_sub s.g.tempo_estado TEMPO_AVISO = s.g.tempo_estado - TEMPO_AVISO) := by
  obtain ⟨he, h100, hle, hentry, hT, hm⟩ := hr.inv
  have hU : s.g.tempo_estado < U32 := by
    by_cases hp : s.ctl.pc = .entry
    · rw [hentry hp]; decide
    · rcases hT hp with h | h <;> rw [h] <;> decide
  refine ⟨hle, hU, u32_sub_of_le hle hU, ?_⟩
  intro hp
  have h3 : TEMPO_AVISO ≤ s.g.tempo_estado := by
    rcases hT (by rw [hp]; simp) with h | h <;> rw [h] <;> decide
  exact ⟨h3, u32_sub_of_le h3 hU⟩

/-- Witness of C18: a state of the first GREEN dwell. -/
theorem no_wraparound_witness :
    u32_sub (sys_verde 118).g.tempo_estado (sys_verde 118).g.tempo_atual =
      (sys_verde 118).g.tempo_estado - (sys_verde 118).g.tempo_atual :=
  (no_wraparound (sys_verde 118) (reachable_verde 118 (by decide))).2.2.1

/-! ## C19: the tone frequencies -/

/-- A rational within 1/4 of a value between `n + 1/4` and `n + 3/4` has integer part `n`. -/
theorem floor_of_near (n : ℕ) (c y : ℚ) (hlo : (n : ℚ) + 1 / 4 ≤ c) (hhi : c < (n : ℚ) + 3 / 4)
    (hy : |y - c| ≤ 1 / 4) : ⌊y⌋₊ = n := by
  have h := abs_le.mp hy
  have hn : (0 : ℚ) ≤ n := Nat.cast_nonneg n
  rw [Nat.floor_eq_iff (by linarith [h.1])]
  constructor <;> linarith [h.1, h.2]

/-- C19. The tones of `vBuzzerTask` are programmed for 800 Hz (NIGHT), 1000 Hz (GREEN),
1200 Hz (YELLOW) and 1500 Hz (RED), four distinct frequencies. The wrap values are 7811,
6249, 5207 and 4165: the integer part of `125000000 / (f * 20) - 1`, below `2^16` before the
conversion to `uint16_t`; the level programmed is `wrap / 2`. The source computes the
quotient in `float`: for 1000 Hz the exact value is the integer 6249, and for the other
three any value within 1/4 of the exact one has the same integer part. -/
theorem buzzer_wraps :
    (∀ (now : Nat) (g : Shared),
      vBuzzerTask now { g with modo_noturno := true, led_aceso := true,
                               timestamp_modo_noturno := xTaskGetTickCount now }
        = buzzer_tone 800 200) ∧
    (∀ (now : Nat) (g : Shared),
      vBuzzerTask now { g with modo_noturno := false, estado_semaforo := ESTADO_VERDE }
        = buzzer_tone 1000 100 ++ [.vTaskDelay 900]) ∧
    (∀ (now : Nat) (g : Shared),
      vBuzzerTask now { g with modo_noturno := false, estado_semaforo := ESTADO_AMARELO }
        = buzzer_tone 1200 100 ++ [.vTaskDelay 100]) ∧
    (∀ (now : Nat) (g : Shared),
      vBuzzerTask now { g with modo_noturno := false, estado_semaforo := ESTADO_VERMELHO }
        = buzzer_tone 1500 500 ++ [.vTaskDelay 1500]) ∧
    [800, 1000, 1200, 1500].Nodup ∧
    (buzzer_wrap 800 = 7811 ∧ buzzer_wrap 1000 = 6249 ∧ buzzer_wrap 1200 = 5207 ∧
      buzzer_wrap 1500 = 4165) ∧
    (∀ f ∈ [800, 1000, 1200, 1500],
      buzzer_wrap f = ⌊(125000000 : ℚ) / ((f : ℚ) * 20) - 1⌋₊ ∧
      125000000 / (f * 20) - 1 < 65536) ∧
    (∀ f on_ms : Nat, buzzer_tone f on_ms =
      [.pwm_set_clkdiv 20, .pwm_set_wrap (buzzer_wrap f),
       .pwm_set_gpio_level (buzzer_wrap f / 2), .vTaskDelay on_ms, .pwm_set_gpio_level 0]) ∧
    ((125000000 : ℚ) / (1000 * 20) - 1 = 6249 ∧
     ∀ y : ℚ,
      (|y - ((125000000 : ℚ) / (800 * 20) - 1)| ≤ 1 / 4 → ⌊y⌋₊ = 7811) ∧
      (|y - ((125000000 : ℚ) / (1200 * 20) - 1)| ≤ 1 / 4 → ⌊y⌋₊ = 5207) ∧
      (|y - ((125000000 : ℚ) / (1500 * 20) - 1)| ≤ 1 / 4 → ⌊y⌋₊ = 4165)) := by
  refine ⟨?_, ?_, ?_, ?_, by decide, by decide, ?_, fun f on_ms => rfl, by norm_num, ?_⟩
  · intro now g
    have h200 : pdMS_TO_TICKS 200 = 200 := by decide
    have h0 : u32_sub (xTaskGetTickCount now) (xTaskGetTickCount now) = 0 := by
      simp only [u32_sub, xTaskGetTickCount, U32]; omega
    simp [vBuzzerTask, h200, h0]
  · intro now g; simp [vBuzzerTask]
  · intro now g; simp [vBuzzerTask]
  · intro now g; simp [vBuzzerTask]
  · intro f hf
    simp only [List.mem_cons, List.mem_singleton, List.not_mem_nil, or_false] at hf
    rcases hf with h | h | h | h <;> subst h <;> refine ⟨?_, by decide⟩
    · rw [show buzzer_wrap 800 = 7811 by decide]; symm
      rw [Nat.floor_eq_iff (by norm_num)]; norm_num
    · rw [show buzzer_wrap 1000 = 6249 by decide]; symm
      rw [Nat.floor_eq_iff (by norm_num)]; norm_num
    · rw [show buzzer_wrap 1200 = 5207 by decide]; symm
      rw [Nat.floor_eq_iff (by norm_num)]; norm_num
    · rw [show buzzer_wrap 1500 = 4165 by decide]; symm
      rw [Nat.floor_eq_iff (by norm_num)]; norm_num
  · intro y
    refine ⟨fun h => floor_of_near 7811 _ y (by norm_num) (by norm_num) h,
      fun h => floor_of_near 5207 _ y (by norm_num) (by norm_num) h,
      fun h => floor_of_near 4165 _ y (by norm_num) (by norm_num) h⟩

/-! ## C20: the colour is one of the three -/

/-- C20. In every reachable state `estado_semaforo` is 0, 1 or 2. So the `switch` of the
control task sets `tempo_estado` to the dwell time of the colour, the panel task writes a
frame of 25 pixels, the display task draws a status word in NORMAL mode, the buzzer task
runs a full cycle of six operations in NORMAL mode and the status-LED task drives the LED. -/
theorem estado_in_range (s : Sys) (hr : Reachable s) :
    (s.g.estado_semaforo = ESTADO_VERDE ∨ s.g.estado_semaforo = ESTADO_AMARELO ∨
      s.g.estado_semaforo = ESTADO_VERMELHO) ∧
    ((s.g.estado_semaforo = ESTADO_VERDE ∧ switch_tempo_estado s.g = TEMPO_VERDE) ∨
     (s.g.estado_semaforo = ESTADO_AMARELO ∧ switch_tempo_estado s.g = TEMPO_AMARELO) ∨
     (s.g.estado_semaforo = ESTADO_VERMELHO ∧ switch_tempo_estado s.g = TEMPO_VERMELHO)) ∧
    (vMatrizLedsTask s.g).1.length = NUM_PIXELS ∧
    (s.g.modo_noturno = false → ∃ w x y, (vDisplayTask s.g)[1]? = some (w, x, y) ∧
      (w = "Siga" ∨ w = "Atencao" ∨ w = "Pare")) ∧
    (s.g.modo_noturno = false → ∀ now : Nat, (vBuzzerTask now s.g).length = 6) ∧
    (∀ p : Bool, ((vLedRgbTask s.g p).1).isSome = true) := by
  have he := hr.inv.1
  refine ⟨he, ?_, ?_, ?_, ?_, ?_⟩
  · rcases he with h | h | h <;> simp [switch_tempo_estado, h]
  · simp only [vMatrizLedsTask]
    split
    · split <;> simp [display_matriz]
    · rcases he with h | h | h <;> simp [h, display_matriz]
  · intro hm
    rcases he with h | h | h <;> simp [vDisplayTask, hm, h]
  · intro hm now
    rcases he with h | h | h <;> simp [vBuzzerTask, hm, h, buzzer_tone]
  · intro p
    simp only [vLedRgbTask]
    split
    · simp
    · split
      · rcases he with h | h | h <;> simp [h]
      · simp

/-- Witness of C20: the NIGHT state `sys_noite_verde`. -/
theorem estado_in_range_witness :
    sys_noite_verde.g.estado_semaforo = ESTADO_VERDE ∨
    sys_noite_verde.g.estado_semaforo = ESTADO_AMARELO ∨
    sys_noite_verde.g.estado_semaforo = ESTADO_VERMELHO :=
  (estado_in_range sys_noite_verde reachable_noite_verde).1

/-! ## C21: the range of the countdown -/

/-- A run of the control task up to its next delay keeps a state reachable. -/
theorem reachable_ctl_until_blocked (now fuel : Nat) (g : Shared) (c : Ctl) (b : Bool)
    (h : Reachable ⟨g, c, b⟩) :
    Reachable ⟨(ctl_until_blocked now fuel (g, c)).1, (ctl_until_blocked now fuel (g, c)).2, b⟩ := by
  induction fuel generalizing g c with
  | zero => exact h
  | succ n ih =>
    simp only [ctl_until_blocked]
    have h1 := Reachable.ctl now _ h
    split
    · exact h1
    · exact ih _ _ h1

/-- From the head of the loop in NIGHT mode the task blocks at once, the flag cleared. -/
theorem blocked_from_loop_head_night (now n : Nat) (g : Shared) (u : Nat)
    (hm : g.modo_noturno = true) :
    blocked_ok true (ctl_until_blocked now (n + 1) (g, ⟨.loop_head, u⟩)) := by
  simp only [ctl_until_blocked, vSemaforoControleTask, hm, if_true]
  split <;> simp [blocked_ok, CtlPc.suspended, CtlPc.delay_ms, hm]

/-- From the test of the wait loop, when it holds, the task blocks after the body. -/
theorem blocked_from_while_body (now n : Nat) (g : Shared) (u : Nat)
    (hm : g.modo_noturno = false) (hlt : g.tempo_atual < g.tempo_estado)
    (h100 : g.tempo_atual % 100 = 0)
    (hT : g.tempo_estado = 5000 ∨ g.tempo_estado = 15000) :
    blocked_ok false (ctl_until_blocked now (n + 1) (g, ⟨.while_cond, u⟩)) := by
  have h1 : u32_add g.tempo_atual 100 = g.tempo_atual + 100 :=
    u32_add_of_lt (by simp only [U32]; omega)
  have h2 : u32_sub g.tempo_estado TEMPO_AVISO = g.tempo_estado - 3000 :=
    u32_sub_of_le (by simp only [TEMPO_AVISO]; omega) (by simp only [U32]; omega)
  simp only [ctl_until_blocked, vSemaforoControleTask, hlt, if_true, h1, h2, CtlPc.suspended]
  simp [blocked_ok, CtlPc.suspended, CtlPc.delay_ms, hm]
  omega

/-- From the head of the loop in NORMAL mode the task blocks in the first delay of a dwell. -/
theorem blocked_from_loop_head_normal (now n : Nat) (g : Shared) (u : Nat)
    (hm : g.modo_noturno = false)
    (he : g.estado_semaforo = 0 ∨ g.estado_semaforo = 1 ∨ g.estado_semaforo = 2) :
    blocked_ok false (ctl_until_blocked now (n + 2) (g, ⟨.loop_head, u⟩)) := by
  have hs : switch_tempo_estado g = 5000 ∨ switch_tempo_estado g = 15000 := by
    rcases he with h | h | h <;> simp [switch_tempo_estado, h]
  have h1 : vSemaforoControleTask now g ⟨.loop_head, u⟩ =
      ({ g with tempo_estado := switch_tempo_estado g, tempo_atual := 0 }, ⟨.while_cond, u⟩) := by
    simp [vSemaforoControleTask, hm]
  rw [ctl_until_blocked]
  simp only [h1, CtlPc.suspended]
  exact blocked_from_while_body now n _ u hm (by simp only; omega) rfl hs

/-- From line 250 in NIGHT mode the colour is kept and the task blocks at line 210. -/
theorem blocked_from_after_while_night (now n : Nat) (g : Shared) (u : Nat)
    (hm : g.modo_noturno = true) :
    blocked_ok true (ctl_until_blocked now (n + 2) (g, ⟨.after_while, u⟩)) := by
  have h1 : vSemaforoControleTask now g ⟨.after_while, u⟩ = (g, ⟨.loop_head, u⟩) := by
    simp [vSemaforoControleTask, hm]
  rw [ctl_until_blocked]
  simp only [h1, CtlPc.suspended]
  exact blocked_from_loop_head_night now n g u hm

/-- From line 250 in NORMAL mode the next dwell starts and the task blocks in its first
delay. -/
theorem blocked_from_after_while_normal (now n : Nat) (g : Shared) (u : Nat)
    (hm : g.modo_noturno = false)
    (he : g.estado_semaforo = 0 ∨ g.estado_semaforo = 1 ∨ g.estado_semaforo = 2) :
    blocked_ok false (ctl_until_blocked now (n + 3) (g, ⟨.after_while, u⟩)) := by
  rw [ctl_until_blocked]
  by_cases hc : g.tempo_atual ≥ g.tempo_estado
  · have h1 : vSemaforoControleTask now g ⟨.after_while, u⟩ =
        ({ g with estado_semaforo := Int.tmod (g.estado_semaforo + 1) 3, aviso_troca := false },
         ⟨.loop_head, u⟩) := by
      simp [vSemaforoControleTask, hm, hc]
    simp only [h1, CtlPc.suspended]
    refine blocked_from_loop_head_normal now n _ u hm ?_
    rcases he with h | h | h <;> simp only [h] <;> decide
  · have h1 : vSemaforoControleTask now g ⟨.after_while, u⟩ = (g, ⟨.loop_head, u⟩) := by
      simp [vSemaforoControleTask, hc]
    simp only [h1, CtlPc.suspended]
    exact blocked_from_loop_head_normal now n g u hm he

/-- From the wake-up of the wait loop (line 240 returns) the task blocks again. -/
theorem blocked_from_wait_delay (now n : Nat) (g : Shared) (u : Nat)
    (he : g.estado_semaforo = 0 ∨ g.estado_semaforo = 1 ∨ g.estado_semaforo = 2)
    (h100 : g.tempo_atual % 100 = 0)
    (hT : g.tempo_estado = 5000 ∨ g.tempo_estado = 15000) :
    blocked_ok g.modo_noturno (ctl_until_blocked now (n + 5) (g, ⟨.wait_delay, u⟩)) := by
  generalize hmm : g.modo_noturno = m
  rw [ctl_until_blocked]
  cases m with
  | true =>
    have h1 : vSemaforoControleTask now g ⟨.wait_delay, u⟩ =
        ({ g with aviso_troca := false }, ⟨.after_while, u⟩) := by
      simp [vSemaforoControleTask, hmm]
    simp only [h1, CtlPc.suspended]
    exact blocked_from_after_while_night now (n + 2) _ u hmm
  | false =>
    have h1 : vSemaforoControleTask now g ⟨.wait_delay, u⟩ = (g, ⟨.while_cond, u⟩) := by
      simp [vSemaforoControleTask, hmm]
    simp only [h1, CtlPc.suspended]
    by_cases hlt : g.tempo_atual < g.tempo_estado
    · exact blocked_from_while_body now (n + 3) g u hmm hlt h100 hT
    · have h2 : vSemaforoControleTask now g ⟨.while_cond, u⟩ = (g, ⟨.after_while, u⟩) := by
        simp [vSemaforoControleTask, hlt]
      rw [ctl_until_blocked]
      simp only [h2, CtlPc.suspended]
      exact blocked_from_after_while_normal now n g u hmm he

/-- From the wake-up of the NIGHT delay (line 210 returns) the task blocks again. -/
theorem blocked_from_night_delay (now n : Nat) (g : Shared) (u : Nat)
    (he : g.estado_semaforo = 0 ∨ g.estado_semaforo = 1 ∨ g.estado_semaforo = 2) :
    blocked_ok g.modo_noturno (ctl_until_blocked now (n + 3) (g, ⟨.night_delay, u⟩)) := by
  have h1 : vSemaforoControleTask now g ⟨.night_delay, u⟩ = (g, ⟨.loop_head, u⟩) := rfl
  generalize hmm : g.modo_noturno = m
  rw [ctl_until_blocked]
  simp only [h1, CtlPc.suspended]
  cases m with
  | true => exact blocked_from_loop_head_night now (n + 1) g u hmm
  | false => exact blocked_from_loop_head_normal now n g u hmm he

/-- From its entry the task blocks in its first delay. -/
theorem blocked_from_entry (now n : Nat) (g : Shared) (u : Nat)
    (he : g.estado_semaforo = 0 ∨ g.estado_semaforo = 1 ∨ g.estado_semaforo = 2) :
    blocked_ok g.modo_noturno (ctl_until_blocked now (n + 3) (g, ⟨.entry, u⟩)) := by
  have h1 : vSemaforoControleTask now g ⟨.entry, u⟩ =
      ({ g with tempo_estado := TEMPO_VERDE }, ⟨.loop_head, 0⟩) := rfl
  generalize hmm : g.modo_noturno = m
  rw [ctl_until_blocked]
  simp only [h1, CtlPc.suspended]
  cases m with
  | true => exact blocked_from_loop_head_night now (n + 1) _ 0 hmm
  | false => exact blocked_from_loop_head_normal now n _ 0 hmm he

/-- A run of the control task from a delay or from its entry, in a state that satisfies
the invariant, ends blocked within six steps. -/
theorem blocked_of_inv (now : Nat) (s : Sys) (hi : s.inv)
    (hpc : s.ctl.pc.suspended = true ∨ s.ctl.pc = .entry) :
    blocked_ok s.g.modo_noturno (ctl_until_blocked now 6 (s.g, s.ctl)) := by
  obtain ⟨g, ⟨pc, u⟩, b⟩ := s
  obtain ⟨he, h100, hle, hentry, hT, -⟩ := hi
  simp only at he h100 hle hentry hT hpc ⊢
  cases pc with
  | entry => exact blocked_from_entry now 3 g u he
  | night_delay => exact blocked_from_night_delay now 3 g u he
  | wait_delay => exact blocked_from_wait_delay now 1 g u he h100 (hT (by simp))
  | loop_head => simp [CtlPc.suspended] at hpc
  | while_cond => simp [CtlPc.suspended] at hpc
  | after_while => simp [CtlPc.suspended] at hpc

/-- The start of the scheduler satisfies the invariant. -/
theorem timed_inv_init : Timed.init.inv := by
  refine ⟨Reachable.init, Or.inr ⟨rfl, Nat.le_refl _, rfl⟩, by decide, ?_, ?_⟩
  · intro h; cases h
  · intro _ h; cases h

/-- A step on the clock keeps the invariant. -/
theorem timed_inv_step (sample : Bool) (t : Timed) (h : t.inv) : (t.step sample).inv := by
  obtain ⟨s, wc, wb⟩ := t
  obtain ⟨hr, hpc, h3, h4, h5⟩ := h
  simp only at hr hpc h3 h4 h5
  by_cases hc : wc ≤ wb
  · -- the control task runs
    have hpc2 : s.ctl.pc.suspended = true ∨ s.ctl.pc = .entry := by
      rcases hpc with h | h
      · exact Or.inl h
      · exact Or.inr h.1
    obtain ⟨b1, b2, b3, b4, b5⟩ := blocked_of_inv wc s hr.inv hpc2
    have hr2 := reachable_ctl_until_blocked wc 6 s.g s.ctl s.ultimo_estado_botao_a hr
    simp only [Timed.step, hc, if_true, Timed.inv]
    refine ⟨hr2, Or.inl b1, by omega, ?_, ?_⟩
    · intro hm ha
      rw [b4 (b3 ▸ hm)] at ha
      cases ha
    · intro hm ha
      exact b5 (b3 ▸ hm) ha
  · -- the button task polls
    have hs : s.ctl.pc.suspended = true := by
      rcases hpc with h | h
      · exact h
      · exact absurd h.2.1 hc
    have hna : ¬ (s.g.modo_noturno = true ∧ s.g.aviso_troca = true) :=
      fun h => hc (h4 h.1 h.2)
    simp only [Timed.step, hc, if_false, Timed.inv]
    refine ⟨Reachable.botoes wb sample s hr hs, Or.inl hs, by omega, ?_, ?_⟩
    · intro hm ha
      by_cases he : s.ultimo_estado_botao_a = true ∧ sample = false
      · obtain ⟨hu, hsm⟩ := he
        rw [hu, hsm, (botoes_edge wb s.g).2]
        omega
      · exfalso
        apply hna
        simp only [Sys.botoes_step, botoes_no_edge wb sample s.g _ he] at hm ha
        exact ⟨hm, ha⟩
    · intro hm ha
      by_cases he : s.ultimo_estado_botao_a = true ∧ sample = false
      · exfalso
        obtain ⟨hu, hsm⟩ := he
        apply hna
        simp only [Sys.botoes_step, hu, hsm, vBotoesTask] at hm ha
        revert hm ha
        cases s.g.modo_noturno <;> simp
      · simp only [Sys.botoes_step, botoes_no_edge wb sample s.g _ he] at hm ha ⊢
        exact h5 hm ha

/-- Every state reached on the clock satisfies the invariant. -/
theorem treachable_inv {t : Timed} (h : TReachable t) : t.inv := by
  induction h with
  | init => exact timed_inv_init
  | step sample t _ ih => exact timed_inv_step sample t ih

/-- In NORMAL mode, before the end of the dwell, a run of the control task from the delay
of the wait loop is one pass of the loop. -/
theorem ctl_until_blocked_wait (now n : Nat) (g : Shared) (u : Nat)
    (hm : g.modo_noturno = false) (hlt : g.tempo_atual < g.tempo_estado)
    (hT : g.tempo_estado + 100 ≤ U32) :
    ctl_until_blocked now (n + 2) (g, ⟨.wait_delay, u⟩) =
      ({ g with aviso_troca := decide (g.tempo_atual ≥ u32_sub g.tempo_estado TEMPO_AVISO),
                tempo_atual := g.tempo_atual + 100 }, ⟨.wait_delay, u⟩) := by
  have h1 : vSemaforoControleTask now g ⟨.wait_delay, u⟩ = (g, ⟨.while_cond, u⟩) := by
    simp [vSemaforoControleTask, hm]
  rw [ctl_until_blocked]
  simp only [h1, CtlPc.suspended]
  rw [ctl_until_blocked]
  simp only [wait_body now g u hlt hT, CtlPc.suspended]
  rfl

/-- A poll with the button released, after a released sample, only moves the next poll. -/
theorem timed_poll_idle (s : Sys) (wc wb : Nat) (hc : ¬ wc ≤ wb)
    (hu : s.ultimo_estado_botao_a = true) :
    Timed.step true ⟨s, wc, wb⟩ = ⟨s, wc, wb + 50⟩ := by
  obtain ⟨g, c, b⟩ := s
  simp only at hu
  subst hu
  simp [Timed.step, hc, Sys.botoes_step, vBotoesTask]

/-- With the button never pressed, two polls and one run of the control task lead from one
delay of the first GREEN dwell to the next. -/
theorem timed_verde_succ (k : Nat) (hk : k + 1 < 149) :
    (((timed_verde k).step true).step true).step true = timed_verde (k + 1) := by
  have c3 : 100 * (k + 1) ≤ 100 * k + 50 + 50 := by omega
  have h2 : u32_sub 15000 TEMPO_AVISO = 12000 := by decide
  have e : timed_verde k =
      ⟨{ sys_verde k with ctl := { pc := .wait_delay, ultimo_tick_modo_noturno := 0 } },
       100 * (k + 1), 100 * k⟩ := rfl
  have p1 := timed_poll_idle
    { sys_verde k with ctl := { pc := .wait_delay, ultimo_tick_modo_noturno := 0 } }
    (100 * (k + 1)) (100 * k) (by omega) rfl
  have p2 := timed_poll_idle
    { sys_verde k with ctl := { pc := .wait_delay, ultimo_tick_modo_noturno := 0 } }
    (100 * (k + 1)) (100 * k + 50) (by omega) rfl
  rw [e, p1, p2]
  simp only [Timed.step, c3, if_true]
  rw [ctl_until_blocked_wait (100 * (k + 1)) 4 _ 0 rfl (by simp only [sys_verde]; omega)
    (by simp only [sys_verde, U32]; omega)]
  simp only [timed_verde, sys_verde, Shared.init, CtlPc.delay_ms, h2]
  simp only [Timed.mk.injEq, Sys.mk.injEq, Shared.mk.injEq, and_true, true_and]
  refine ⟨?_, ?_⟩ <;> trivial

/-- The first run of the control task leads to the first delay of the GREEN dwell. -/
theorem timed_verde_zero : Timed.init.step true = timed_verde 0 := by decide

/-- The states `timed_verde k` are reached on the clock, for `k < 149`. -/
theorem treachable_verde (k : Nat) (hk : k < 149) : TReachable (timed_verde k) := by
  induction k with
  | zero => rw [← timed_verde_zero]; exact TReachable.step true _ TReachable.init
  | succ k ih =>
    rw [← timed_verde_succ k hk]
    exact TReachable.step true _ (TReachable.step true _ (TReachable.step true _ (ih (by omega))))

/-- Why C21 is stated on the clock. `Reachable` lets the button task poll any number of
times while the control task is blocked, so it contains `sys_dois_toques`: two toggles
within one delay of the control task, NORMAL mode again with `tempo_atual = 0` and the
warning flag of the interrupted dwell still set, where the countdown would read 16. On the
clock the button task sleeps 250 ms after a toggle and the control task wakes up every
100 ms at most, so the flag is cleared before the second toggle (`Timed.inv`). -/
theorem untimed_double_toggle :
    Reachable sys_dois_toques ∧
    sys_dois_toques.g.modo_noturno = false ∧
    sys_dois_toques.g.aviso_troca = true ∧
    tempo_restante sys_dois_toques.g = 16 :=
  ⟨Reachable.botoes _ _ _ (Reachable.botoes _ _ _ (Reachable.botoes _ _ _
      (Reachable.ctl 0 _ (reachable_verde 128 (by decide))) (by decide)) (by decide))
      (by decide), by decide, by decide, by decide⟩

/-- A run of the control task that ends blocked ends with a step taken in a reachable
state. -/
theorem ctl_until_blocked_last (now fuel : Nat) (g : Shared) (c : Ctl) (b : Bool)
    (h : Reachable ⟨g, c, b⟩)
    (hs : (ctl_until_blocked now (fuel + 1) (g, c)).2.pc.suspended = true) :
    ∃ s : Sys, Reachable s ∧
      (s.ctl_step now).g = (ctl_until_blocked now (fuel + 1) (g, c)).1 ∧
      (s.ctl_step now).ctl = (ctl_until_blocked now (fuel + 1) (g, c)).2 := by
  induction fuel generalizing g c with
  | zero =>
    refine ⟨⟨g, c, b⟩, h, ?_, ?_⟩ <;>
    · simp only [ctl_until_blocked, Sys.ctl_step]
      split <;> rfl
  | succ n ih =>
    rw [ctl_until_blocked] at hs ⊢
    by_cases h1 : (vSemaforoControleTask now g c).2.pc.suspended = true
    · simp only [h1, if_true] at hs ⊢
      exact ⟨⟨g, c, b⟩, h, rfl, rfl⟩
    · simp only [h1, if_false] at hs ⊢
      exact ih _ _ (Reachable.ctl now _ h) hs

/-- What a run of the control task leaves of the warning flag, from a delay or from the
entry of the task in a reachable state. -/
theorem aviso_after_run (now : Nat) (s : Sys) (hr : Reachable s)
    (hpc : s.ctl.pc.suspended = true ∨ s.ctl.pc = .entry) :
    ((ctl_until_blocked now 6 (s.g, s.ctl)).1.aviso_troca = true ↔
      ((ctl_until_blocked now 6 (s.g, s.ctl)).1.modo_noturno = false ∧
        (ctl_until_blocked now 6 (s.g, s.ctl)).1.tempo_estado
          < (ctl_until_blocked now 6 (s.g, s.ctl)).1.tempo_atual + 3000)) := by
  have hb := blocked_of_inv now s hr.inv hpc
  obtain ⟨s1, hr1, e1, e2⟩ := ctl_until_blocked_last now 5 s.g s.ctl s.ultimo_estado_botao_a hr hb.1
  have hs1 : (s1.ctl_step now).ctl.pc.suspended = true := by rw [e2]; exact hb.1
  obtain ⟨h1, h2⟩ := aviso_troca_at_block s1 now hr1 hs1
  rw [e1] at h1 h2
  simp only [show (5 : Nat) + 1 = 6 from rfl] at h1 h2
  rw [h1]
  constructor
  · rintro ⟨a, b⟩; exact ⟨a, by omega⟩
  · rintro ⟨a, b⟩; exact ⟨a, by omega⟩

/-- The start state satisfies the invariant of the warning flag. -/
theorem timed_inv_aviso_init : Timed.init.inv_aviso := by
  refine ⟨?_, ?_⟩
  · intro h; cases h
  · intro h; cases h

/-- A step on the clock keeps the invariant of the warning flag. -/
theorem timed_inv_aviso_step (sample : Bool) (t : Timed) (h : t.inv) (ha : t.inv_aviso) :
    (t.step sample).inv_aviso := by
  obtain ⟨s, wc, wb⟩ := t
  obtain ⟨hr, hpc, h3, h4, -⟩ := h
  obtain ⟨a1, a2⟩ := ha
  simp only at hr hpc h3 h4 a1 a2
  by_cases hc : wc ≤ wb
  · -- the control task runs
    have hpc2 : s.ctl.pc.suspended = true ∨ s.ctl.pc = .entry := by
      rcases hpc with h | h
      · exact Or.inl h
      · exact Or.inr h.1
    have hf := aviso_after_run wc s hr hpc2
    simp only [Timed.step, hc, if_true, Timed.inv_aviso]
    refine ⟨?_, ?_⟩
    · intro _ hm
      rw [hf]
      exact ⟨fun h => h.2, fun h => ⟨hm, h⟩⟩
    · intro hm hav
      rw [(hf.mp hav).1] at hm
      cases hm
  · -- the button task polls
    have hs : s.ctl.pc.suspended = true := by
      rcases hpc with h | h
      · exact h
      · exact absurd h.2.1 hc
    have hna : ¬ (s.g.modo_noturno = true ∧ s.g.aviso_troca = true) :=
      fun h => hc (h4 h.1 h.2)
    have hT : s.g.tempo_estado = 5000 ∨ s.g.tempo_estado = 15000 := by
      apply hr.inv.2.2.2.2.1
      intro h
      rw [h] at hs
      cases hs
    simp only [Timed.step, hc, if_false, Timed.inv_aviso]
    by_cases he : s.ultimo_estado_botao_a = true ∧ sample = false
    · obtain ⟨hu, hsm⟩ := he
      subst hsm
      have e250 : (vBotoesTask wb false s.g s.ultimo_estado_botao_a).2.2 = 250 := by
        rw [hu, (botoes_edge wb s.g).2]
      rw [e250]
      simp only [Sys.botoes_step, hu]
      cases hmo : s.g.modo_noturno with
      | true =>
        have hav : s.g.aviso_troca = false := by
          cases hv : s.g.aviso_troca with
          | false => rfl
          | true => exact absurd ⟨hmo, hv⟩ hna
        simp [vBotoesTask, hmo, hav]
        omega
      | false =>
        have i1 := a1 hs hmo
        simp [vBotoesTask, hmo]
        intro hv
        exact ⟨i1.mp hv, by omega⟩
    · simp only [Sys.botoes_step, botoes_no_edge wb sample s.g _ he]
      refine ⟨fun _ hm => a1 hs hm, fun hm hav => absurd ⟨hm, hav⟩ hna⟩

/-- Every state reached on the clock satisfies the invariant of the warning flag. -/
theorem treachable_inv_aviso {t : Timed} (h : TReachable t) : t.inv_aviso := by
  induction h with
  | init => exact timed_inv_aviso_init
  | step sample t ht ih => exact timed_inv_aviso_step sample t (treachable_inv ht) ih

/-- After any step on the clock the control task is blocked in a `vTaskDelay`: the start
state, in which no task has run yet, is the only state on the clock in which it is not. -/
theorem timed_step_suspended (sample : Bool) (t : Timed) (hr : TReachable t) :
    (t.step sample).sys.ctl.pc.suspended = true := by
  obtain ⟨h1, h2, -⟩ := treachable_inv hr
  by_cases hc : t.wake_ctl ≤ t.wake_botoes
  · have hpc : t.sys.ctl.pc.suspended = true ∨ t.sys.ctl.pc = .entry := by
      rcases h2 with h | h
      · exact Or.inl h
      · exact Or.inr h.1
    simp only [Timed.step, hc, if_true]
    exact (blocked_of_inv t.wake_ctl t.sys h1.inv hpc).1
  · simp only [Timed.step, hc, if_false, Sys.botoes_step]
    rcases h2 with h | h
    · exact h
    · exact absurd h.2.1 hc

/-- C2 fails as stated, in two states reached on the clock with the control task blocked in
its 100 ms delay. In the first GREEN dwell at `tempo_atual = 12000`, NORMAL mode,
`tempo_estado - tempo_atual` is exactly 3000 and `aviso_troca` is false. After a press edge
polled at time 12800 of the same dwell, `modo_noturno` and `aviso_troca` are both true
(`vBotoesTask` does not write `aviso_troca`, lines 451-462). The stated equivalence fails in
both. -/
theorem aviso_troca_iff_fails :
    (TReachable (timed_verde 119) ∧
      (timed_verde 119).sys.ctl.pc.suspended = true ∧
      (timed_verde 119).sys.g.modo_noturno = false ∧
      (timed_verde 119).sys.g.tempo_estado - (timed_verde 119).sys.g.tempo_atual = 3000 ∧
      (timed_verde 119).sys.g.aviso_troca = false ∧
      ¬ ((timed_verde 119).sys.g.aviso_troca = true ↔
          ((timed_verde 119).sys.g.modo_noturno = false ∧
            (timed_verde 119).sys.g.tempo_estado - (timed_verde 119).sys.g.tempo_atual
              ≤ 3000))) ∧
    (TReachable ((timed_verde 128).step false) ∧
      ((timed_verde 128).step false).sys.ctl.pc.suspended = true ∧
      ((timed_verde 128).step false).sys.g.modo_noturno = true ∧
      ((timed_verde 128).step false).sys.g.aviso_troca = true ∧
      ¬ (((timed_verde 128).step false).sys.g.aviso_troca = true ↔
          (((timed_verde 128).step false).sys.g.modo_noturno = false ∧
            ((timed_verde 128).step false).sys.g.tempo_estado
              - ((timed_verde 128).step false).sys.g.tempo_atual ≤ 3000))) :=
  ⟨⟨treachable_verde 119 (by decide), by decide, by decide, by decide, by decide, by decide⟩,
    ⟨TReachable.step false _ (treachable_verde 128 (by decide)), by decide, by decide,
      by decide, by decide⟩⟩

/-- C2, amended. In every state the two writers reach on the clock with the control task
blocked in a `vTaskDelay` (the states the reader tasks run in): `tempo_atual` is at most
`tempo_estado`; in NORMAL mode `aviso_troca` is true if and only if
`tempo_estado - tempo_atual < 3000`, strictly; in NIGHT mode `aviso_troca` can be true only
with `tempo_estado - tempo_atual < 3000` and with the delay of the control task ending at
least 150 ms before the next poll of the button task (it is the value left by a toggle to
NIGHT, at most 100 ms old), and then the next step on the clock is the run of the control
task, which leaves `aviso_troca` false in NIGHT mode (lines 243-245). The clock matters:
with two toggles inside one delay of the control task, which the 250 ms of the button task
after a toggle exclude, NORMAL mode would be seen with `tempo_atual = 0` and `aviso_troca`
true (`untimed_double_toggle`). -/
theorem aviso_troca_observed (t : Timed) (hr : TReachable t)
    (hs : t.sys.ctl.pc.suspended = true) :
    t.sys.g.tempo_atual ≤ t.sys.g.tempo_estado ∧
    (t.sys.g.modo_noturno = false →
      (t.sys.g.aviso_troca = true ↔ t.sys.g.tempo_estado - t.sys.g.tempo_atual < 3000)) ∧
    (t.sys.g.modo_noturno = true → t.sys.g.aviso_troca = true →
      t.sys.g.tempo_estado - t.sys.g.tempo_atual < 3000 ∧
      t.wake_ctl + 150 ≤ t.wake_botoes ∧
      ∀ sample : Bool,
        (t.step sample).sys.g.aviso_troca = false ∧
        (t.step sample).sys.g.modo_noturno = true ∧
        (t.step sample).sys.ctl.pc.suspended = true ∧
        (t.step sample).wake_botoes = t.wake_botoes) := by
  have hi := treachable_inv hr
  obtain ⟨a1, a2⟩ := treachable_inv_aviso hr
  have hle : t.sys.g.tempo_atual ≤ t.sys.g.tempo_estado := hi.1.inv.2.2.1
  refine ⟨hle, ?_, ?_⟩
  · intro hm
    rw [a1 hs hm]
    omega
  · intro hm hav
    obtain ⟨b1, b2⟩ := a2 hm hav
    refine ⟨by omega, b2, ?_⟩
    intro sample
    have hc : t.wake_ctl ≤ t.wake_botoes := by omega
    have hb := blocked_of_inv t.wake_ctl t.sys hi.1.inv (Or.inl hs)
    rw [hm] at hb
    simp only [Timed.step, hc, if_true]
    exact ⟨hb.2.2.2.1 rfl, hb.2.2.1, hb.1, trivial⟩

/-- Witness of C2 amended: the state after a press edge polled at time 12800 of the first
GREEN dwell (NIGHT mode, `aviso_troca` still true); the next step on the clock clears the
flag. -/
theorem aviso_troca_observed_witness :
    ((timed_verde 128).step false).sys.g.modo_noturno = true ∧
    ((timed_verde 128).step false).sys.g.aviso_troca = true ∧
    (((timed_verde 128).step false).step true).sys.g.aviso_troca = false :=
  ⟨by decide, by decide,
    (((aviso_troca_observed ((timed_verde 128).step false)
      (TReachable.step false _ (treachable_verde 128 (by decide))) (by decide)).2.2
        (by decide) (by decide)).2.2 true).1⟩

end Semaforo
